import Mathlib

/-!
# booklist.go: the record access layer over the `books` table

A shallow embedding of `src/booklist.go`.  Every Go function keeps its name and its
control flow.  The pieces of the environment the program talks to are modelled as
follows.

* Console: the sequence of `fmt.Println` calls, one list entry per call, holding the
  text written before the terminating newline.
* Storage: the `books` table is a list of rows in storage order.  Each SQL statement
  of the source is a constructor of `Stmt` or `Query`, with the effect the SQL text
  has on the table.  Every storage call first consults a fault schedule
  (`DB.faults`): an entry `some msg` makes that call return the error `msg` together
  with a nil result, exactly as `database/sql` does; an empty schedule is a storage
  that interrupts no call.
  Two refusals of the storage layer do not depend on the schedule and are part of the
  model: `database/sql` does not convert a `uint64` argument with the high bit set, so
  a call that passes an id of 2^63 or more returns that conversion error; and SQLite
  does not evaluate a LIKE pattern longer than 50000 bytes, so such a query yields no
  row.  Row ids are SQLite rowids, signed 64-bit integers (`DB.RowidsFit`); the `stars`
  column holds 64-bit integers, so an unsigned flag value is stored as its `int64`
  conversion.
* `time`: `time.Parse` and `Time.Format` for the one layout the program uses,
  `2006-01-02`.
* Go panics (explicit `panic(...)` and nil dereferences) end the run and are
  recorded in the result, together with the state reached.
-/

namespace Booklist

/-! ## The `time` package, for the layout `2006-01-02` -/

/-- A `time.Time` in UTC: a calendar day and the nanoseconds elapsed since midnight. -/
structure Time where
  year : Int
  month : Nat
  day : Nat
  nsec : Nat
deriving DecidableEq, Repr

/-- The zero value of `time.Time`: January 1, year 1, 00:00:00 UTC. -/
def Time.zero : Time := ⟨1, 1, 1, 0⟩

instance : Inhabited Time := ⟨Time.zero⟩

/-- The method `Time.IsZero`: whether the value is the zero time instant. -/
def Time.IsZero (t : Time) : Bool := decide (t = Time.zero)

/-- The helper `isDigit` of package `time`: an ASCII decimal digit. -/
def isDigit (c : Char) : Bool := decide ('0'.toNat ≤ c.toNat) && decide (c.toNat ≤ '9'.toNat)

/-- The numeric value of an ASCII digit (`c - '0'`). -/
def digitVal (c : Char) : Nat := c.toNat - '0'.toNat

/-- The helper `isLeap` of package `time`. -/
def isLeap (year : Nat) : Bool :=
  decide (year % 4 = 0) && (decide (year % 100 ≠ 0) || decide (year % 400 = 0))

/-- The helper `daysIn` of package `time`: the number of days of a month. -/
def daysIn (month year : Nat) : Nat :=
  if month = 2 then (if isLeap year then 29 else 28)
  else if month = 4 ∨ month = 6 ∨ month = 9 ∨ month = 11 then 30
  else 31

/-- The call `time.Parse("2006-01-02", value)`: four year digits, a dash, two month
digits, a dash, two day digits and nothing else; the month must lie in 1..12 and the
day in 1..daysIn.  The result is midnight UTC of that day; `none` stands for a
non-nil error. -/
def time_Parse (value : String) : Option Time :=
  match value.toList with
  | [y1, y2, y3, y4, s1, m1, m2, s2, d1, d2] =>
    if isDigit y1 && isDigit y2 && isDigit y3 && isDigit y4 && decide (s1 = '-')
        && isDigit m1 && isDigit m2 && decide (s2 = '-') && isDigit d1 && isDigit d2 then
      let year := 1000 * digitVal y1 + 100 * digitVal y2 + 10 * digitVal y3 + digitVal y4
      let month := 10 * digitVal m1 + digitVal m2
      let day := 10 * digitVal d1 + digitVal d2
      if month < 1 ∨ 12 < month then none
      else if day < 1 ∨ daysIn month year < day then none
      else some ⟨(year : Int), month, day, 0⟩
    else none
  | _ => none

/-- The helper `appendInt` of package `time`: decimal digits, zero-padded on the left
to `width`, after a minus sign for a negative number. -/
def appendInt (x : Int) (width : Nat) : List Char :=
  let ds := Nat.toDigits 10 x.natAbs
  (if x < 0 then ['-'] else []) ++ (List.replicate (width - ds.length) '0' ++ ds)

/-- The call `t.Format("2006-01-02")`. -/
def Time.Format (t : Time) : String :=
  String.mk (appendInt t.year 4 ++ '-' :: (appendInt t.month 2 ++ '-' :: appendInt t.day 2))

/-! ## Machine integers -/

/-- The Go conversion `int64(x)` of an unsigned 64-bit value. -/
def int64 (x : Nat) : Int :=
  if x % 2 ^ 64 < 2 ^ 63 then ((x % 2 ^ 64 : Nat) : Int) else ((x % 2 ^ 64 : Nat) : Int) - 2 ^ 64

/-- The Go conversion `uint64(x)` of a signed 64-bit value. -/
def uint64 (x : Int) : Nat := (x % 2 ^ 64).toNat

/-! ## Data model -/

/-- The struct `Book`. -/
structure Book where
  id : Int
  title : String
  author : String
  addn_authors : String
  state : String
  stars : Int
  date_read : Time
  created_at : Time
  updated_at : Time
deriving DecidableEq, Repr

/-- The zero value of `Book`, what `var book Book` declares. -/
def Book.zero : Book := ⟨0, "", "", "", "", 0, Time.zero, Time.zero, Time.zero⟩

instance : Inhabited Book := ⟨Book.zero⟩

/-- The command-line flags the record functions read: `-title`, `-author`,
`-addn_authors`, `-state`, `-date_read`, `-stars`, and the action selectors
`-a`, `-e`, `-d`, `-r`, `-s`, `-l`. -/
structure Flags where
  title : String := ""
  author : String := ""
  addn_authors : String := ""
  state : String := ""
  date_read : String := ""
  stars : Nat := 0
  add_book_flag : Bool := false
  edit_book_flag : Nat := 0
  delete_book_flag : Nat := 0
  read_book_flag : Nat := 0
  search_books_flag : Bool := false
  list_book_flag : Bool := false
deriving DecidableEq, Repr

/-- Modelled from the spec: the schema of the `books` table, which the source never
creates (section 6: `id` primary key auto-increment, `title` text required, `author`,
`addn_authors`, `state` text nullable, `stars` integer nullable, `date_read` date
nullable, `created_at` and `updated_at` datetime).  `none` is SQL NULL. -/
structure Row where
  id : Nat
  title : String
  author : Option String
  addn_authors : Option String
  state : Option String
  stars : Option Int
  date_read : Option Time
  created_at : Nat
  updated_at : Nat
deriving DecidableEq, Repr

/-- The storage behind `*sql.DB`: the rows of `books` in storage order, the
auto-increment counter, the reading of `datetime('now')`, and the fault schedule of the
storage calls still to come. -/
structure DB where
  books : List Row
  seq : Nat
  now : Nat
  faults : List (Option String)
deriving DecidableEq, Repr

/-- An `error` value returned by `database/sql`. -/
inductive SqlError where
  | ErrNoRows
  | other (msg : String)
deriving DecidableEq, Repr

/-- The method `Error()`, which is what `fmt.Println(err)` writes. -/
def SqlError.Error : SqlError → String
  | .ErrNoRows => "sql: no rows in result set"
  | .other msg => msg

/-- The value `sql.Result` returned by a successful `Exec`. -/
structure Result where
  lastInsertId : Int
  rowsAffected : Int
deriving DecidableEq, Repr

/-- The seven columns every SELECT of the source lists:
`id, title, author, coalesce(addn_authors,""), state, date_read, coalesce(stars,0)`. -/
structure Selected where
  id : Nat
  title : String
  author : Option String
  addn_authors : String
  state : Option String
  date_read : Option Time
  stars : Int
deriving DecidableEq, Repr

/-- The select list applied to one row. -/
def Row.select (r : Row) : Selected :=
  ⟨r.id, r.title, r.author, r.addn_authors.getD "", r.state, r.date_read, r.stars.getD 0⟩

/-- The SQL function `date(?)` on a bound `time.Time`: the calendar day. -/
def sqlDate (t : Time) : Time := { t with nsec := 0 }

/-- The code of a character with ASCII upper-case letters folded to lower case. -/
def foldCase (c : Char) : Nat :=
  if 65 ≤ c.toNat ∧ c.toNat ≤ 90 then c.toNat + 32 else c.toNat

/-- Comparing two characters the way LIKE does: ASCII letters without case. -/
def likeChar (p c : Char) : Bool := decide (foldCase p = foldCase c)

/-- The SQL operator `text LIKE pattern` on character lists: `%` matches any run of
characters, `_` any one character, anything else itself up to ASCII case. -/
def likeList : List Char → List Char → Bool
  | [], text => text.isEmpty
  | p :: ps, text =>
    if p = '%' then text.tails.any (fun rest => likeList ps rest)
    else
      match text with
      | [] => false
      | c :: cs => (decide (p = '_') || likeChar p c) && likeList ps cs

/-- The WHERE clause `column LIKE ?`; a NULL column matches nothing. -/
def sqlLike (column : Option String) (pattern : String) : Bool :=
  match column with
  | none => false
  | some text => likeList pattern.toList text.toList

/-- The statements the source passes to `Exec`, named after their SQL text. -/
inductive Stmt where
  | insert (title author addn_authors state : String) (date_read : Time) (stars : Int)
  | update_title (v : String) (id : Nat)
  | update_author (v : String) (id : Nat)
  | update_addn_authors (v : String) (id : Nat)
  | update_state (v : String) (id : Nat)
  | update_date_read (t : Time) (id : Nat)
  | update_stars (v : Nat) (id : Nat)
  | delete (id : Nat)
deriving DecidableEq, Repr

/-- The queries the source passes to `Query` and `QueryRow`, named after their WHERE
clause. -/
inductive Query where
  | by_id (id : Nat)
  | title_like (pattern : String)
  | author_like (pattern : String)
  | addn_authors_like (pattern : String)
  | state_like (pattern : String)
  | all
deriving DecidableEq, Repr

/-- The error `database/sql` returns for a `uint64` argument with the high bit set;
`position` counts the arguments of the call from 1. -/
def convError (position : Nat) : String :=
  "sql: converting argument $" ++ toString position
    ++ " type: uint64 values with high bit set are not supported"

/-- The conversion of the `uint64` id passed as argument `position`: `some err` when
the driver refuses it. -/
def refusedArg (position id : Nat) : Option String :=
  if 2 ^ 63 ≤ id then some (convError position) else none

/-- The conversion error of a statement, if one of its arguments is refused.  The
strings, the time and the `uint` stars are always converted. -/
def Stmt.refused : Stmt → Option String
  | .insert _ _ _ _ _ _ => none
  | .update_title _ id => refusedArg 2 id
  | .update_author _ id => refusedArg 2 id
  | .update_addn_authors _ id => refusedArg 2 id
  | .update_state _ id => refusedArg 2 id
  | .update_date_read _ id => refusedArg 2 id
  | .update_stars _ id => refusedArg 2 id
  | .delete id => refusedArg 1 id

/-- The conversion error of a query, if its argument is refused. -/
def Query.refused : Query → Option String
  | .by_id id => refusedArg 1 id
  | _ => none

/-- Whether SQLite refuses the LIKE pattern of a query: the default limit on the
length of a pattern is 50000 bytes. -/
def Query.tooComplex : Query → Bool
  | .title_like p => decide (50000 < p.utf8ByteSize)
  | .author_like p => decide (50000 < p.utf8ByteSize)
  | .addn_authors_like p => decide (50000 < p.utf8ByteSize)
  | .state_like p => decide (50000 < p.utf8ByteSize)
  | _ => false

/-- Modelled from the spec: the id an auto-increment primary key gives the next row,
one more than every id in the table and than the counter. -/
def DB.nextId (db : DB) : Nat :=
  max db.seq (db.books.foldr (fun r m => max r.id m) 0) + 1

/-- The assignment `updated_at = datetime('now')` on one row. -/
def Row.touch (r : Row) (now : Nat) : Row := { r with updated_at := now }

/-- The form `UPDATE books SET column = ?, updated_at = datetime('now') WHERE id = ?`:
`assign` sets the column. -/
def DB.update (db : DB) (id : Nat) (assign : Row → Row) : DB :=
  let books := db.books.map (fun r => if r.id = id then Row.touch (assign r) db.now else r)
  { db with books := books }

/-- The effect of a statement that executes without error. -/
def Stmt.run (s : Stmt) (db : DB) : Result × DB :=
  match s with
  | .insert title author addn_authors state date_read stars =>
    let id := db.nextId
    (⟨(id : Int), 1⟩,
     { db with
       books := db.books ++ [⟨id, title, some author, some addn_authors, some state,
                              some stars, some (sqlDate date_read), db.now, db.now⟩],
       seq := id })
  | .update_title v id => (⟨0, 0⟩, db.update id (fun r => { r with title := v }))
  | .update_author v id => (⟨0, 0⟩, db.update id (fun r => { r with author := some v }))
  | .update_addn_authors v id =>
    (⟨0, 0⟩, db.update id (fun r => { r with addn_authors := some v }))
  | .update_state v id => (⟨0, 0⟩, db.update id (fun r => { r with state := some v }))
  | .update_date_read t id =>
    (⟨0, 0⟩, db.update id (fun r => { r with date_read := some (sqlDate t) }))
  | .update_stars v id => (⟨0, 0⟩, db.update id (fun r => { r with stars := some (int64 v) }))
  | .delete id => (⟨0, 0⟩, { db with books := db.books.filter (fun r => decide (r.id ≠ id)) })

/-- The WHERE clause of a query on one row. -/
def Query.selects (q : Query) (r : Row) : Bool :=
  match q with
  | .by_id id => decide (r.id = id)
  | .title_like p => sqlLike (some r.title) p
  | .author_like p => sqlLike r.author p
  | .addn_authors_like p => sqlLike r.addn_authors p
  | .state_like p => sqlLike r.state p
  | .all => true

/-- The rows a cursor yields, in storage order.  With a refused LIKE pattern the first
step of the cursor fails, `rows.Next` returns false at once and the source never looks
at `rows.Err`: the loop sees no row. -/
def Query.run (q : Query) (db : DB) : List Selected :=
  if q.tooComplex then [] else (db.books.filter q.selects).map Row.select

/-- The next entry of the fault schedule, consumed by one storage call. -/
def DB.nextFault (db : DB) : Option String × DB :=
  match db.faults with
  | [] => (none, db)
  | e :: rest => (e, { db with faults := rest })

/-! ## Running Go code: console, storage, panics -/

/-- What a running function can see and change: the storage and the console. -/
structure World where
  db : DB
  out : List String
deriving DecidableEq, Repr

/-- How a call ends: it returns a value, or it panics with a message. -/
inductive Res (α : Type) where
  | ok (a : α) (w : World)
  | panicked (msg : String) (w : World)
deriving DecidableEq, Repr

/-- The world a call leaves behind. -/
def Res.world {α : Type} : Res α → World
  | .ok _ w => w
  | .panicked _ w => w

/-- The panic message of a call, `none` when it returned normally. -/
def Res.panicMsg {α : Type} : Res α → Option String
  | .ok _ _ => none
  | .panicked msg _ => some msg

/-- A piece of Go code: a function of the world. -/
def Prog (α : Type) : Type := World → Res α

/-- Returning a value. -/
def Prog.pure {α : Type} (a : α) : Prog α := fun w => .ok a w

/-- Sequencing: a panic in the first part skips the second. -/
def Prog.bind {α β : Type} (m : Prog α) (f : α → Prog β) : Prog β := fun w =>
  match m w with
  | .ok a w1 => f a w1
  | .panicked msg w1 => .panicked msg w1

instance : Monad Prog where
  pure := Prog.pure
  bind := Prog.bind

/-- The builtin `panic(msg)`. -/
def go_panic {α : Type} (msg : String) : Prog α := fun w => .panicked msg w

/-- The runtime panic of calling a method through a nil pointer or nil interface. -/
def nilDereference : String := "runtime error: invalid memory address or nil pointer dereference"

/-- The call `fmt.Println(args...)`: the operands separated by single spaces. -/
def Println (args : List String) : Prog Unit := fun w =>
  .ok () { w with out := w.out ++ [" ".intercalate args] }

/-- The statement `defer d` followed by `body`: `d` runs when `body` ends, also when
it ends in a panic, and its result is dropped. -/
def withDefer {α : Type} (d : Prog Unit) (body : Prog α) : Prog α := fun w =>
  match body w with
  | .ok a w1 => .ok a (d w1).world
  | .panicked msg w1 => .panicked msg (d w1).world

/-- The call `db.Exec(stmt, args...)`: the pair `(result, err)`, one of them nil. -/
def db_Exec (s : Stmt) : Prog (Option Result × Option SqlError) := fun w =>
  match w.db.nextFault with
  | (some msg, db1) => .ok (none, some (.other msg)) { w with db := db1 }
  | (none, db1) =>
    match s.refused with
    | some msg => .ok (none, some (.other msg)) { w with db := db1 }
    | none => .ok (some (s.run db1).1, none) { w with db := (s.run db1).2 }

/-- The call `db.Query(query, args...)`: the pair `(rows, err)`, one of them nil.
The cursor is the list of rows still to be read. -/
def db_Query (q : Query) : Prog (Option (List Selected) × Option SqlError) := fun w =>
  match w.db.nextFault with
  | (some msg, db1) => .ok (none, some (.other msg)) { w with db := db1 }
  | (none, db1) =>
    match q.refused with
    | some msg => .ok (none, some (.other msg)) { w with db := db1 }
    | none => .ok (some (q.run db1), none) { w with db := db1 }

/-- The value `*sql.Row` returned by `QueryRow`: never nil, it carries either the
error of the query or its rows until `Scan` is called. -/
structure SqlRow where
  err : Option SqlError
  rows : List Selected
deriving DecidableEq, Repr

/-- The call `db.QueryRow(query, args...)`. -/
def db_QueryRow (q : Query) : Prog SqlRow := fun w =>
  match w.db.nextFault with
  | (some msg, db1) => .ok ⟨some (.other msg), []⟩ { w with db := db1 }
  | (none, db1) =>
    match q.refused with
    | some msg => .ok ⟨some (.other msg), []⟩ { w with db := db1 }
    | none => .ok ⟨none, q.run db1⟩ { w with db := db1 }

/-- The error `Scan` returns when a column holds NULL: `detail` is what
`convertAssign` says for the destination. -/
def scanError (column : Nat) (name detail : String) : SqlError :=
  .other ("sql: Scan error on column index " ++ toString column ++ ", name \"" ++ name
    ++ "\": " ++ detail)

/-- The detail for a NULL scanned into a `*string`. -/
def nullToString : String := "converting NULL to string is unsupported"

/-- The detail for a NULL scanned into a `*time.Time`. -/
def nullToTime : String :=
  "unsupported Scan, storing driver.Value type <nil> into type *time.Time"

/-- The call `rows.Scan(&book.id, &book.title, &book.author, &book.addn_authors,
&book.state, &book.date_read, &book.stars)` on the current row: the destinations are
assigned from left to right and the first NULL that does not fit stops the scan,
leaving the later fields of `book` as they were. -/
def rows_Scan (s : Selected) (book : Book) : Book × Option SqlError :=
  let book := { book with id := (s.id : Int) }
  let book := { book with title := s.title }
  match s.author with
  | none => (book, some (scanError 2 "author" nullToString))
  | some author =>
    let book := { book with author := author }
    let book := { book with addn_authors := s.addn_authors }
    match s.state with
    | none => (book, some (scanError 4 "state" nullToString))
    | some state =>
      let book := { book with state := state }
      match s.date_read with
      | none => (book, some (scanError 5 "date_read" nullToTime))
      | some t =>
        let book := { book with date_read := t }
        ({ book with stars := s.stars }, none)

/-- The method `(*sql.Row).Scan`: the error of the query if there is one,
`sql.ErrNoRows` if it returned no row, else the scan of its first row. -/
def row_Scan (row : SqlRow) (book : Book) : Book × Option SqlError :=
  match row.err with
  | some e => (book, some e)
  | none =>
    match row.rows with
    | [] => (book, some .ErrNoRows)
    | s :: _ => rows_Scan s book

/-- The value `*sql.Tx`: what to restore if the transaction does not commit. -/
structure Tx where
  books : List Row
  seq : Nat
deriving DecidableEq, Repr

/-- The call `db.Begin()`: the pair `(tx, err)`, one of them nil. -/
def db_Begin : Prog (Option Tx × Option SqlError) := fun w =>
  match w.db.nextFault with
  | (some msg, db1) => .ok (none, some (.other msg)) { w with db := db1 }
  | (none, db1) => .ok (some ⟨db1.books, db1.seq⟩, none) { w with db := db1 }

/-- The call `tx.Exec(stmt, args...)`. -/
def tx_Exec (_tx : Tx) (s : Stmt) : Prog (Option Result × Option SqlError) := db_Exec s

/-- The call `tx.Commit()`; when it fails the statements of the transaction are not
kept. -/
def tx_Commit (tx : Tx) : Prog Unit := fun w =>
  match w.db.nextFault with
  | (some _, db1) => .ok () { w with db := { db1 with books := tx.books, seq := tx.seq } }
  | (none, db1) => .ok () { w with db := db1 }

/-- The method `result.LastInsertId()` of the sqlite driver: never an error. -/
def Result.LastInsertId (r : Result) : Int × Option SqlError := (r.lastInsertId, none)

/-! ## The functions of booklist.go -/

/-- The method `Book.print_record` (lines 44-63). -/
def Book.print_record (book : Book) : Prog Unit := do
  Println ["ID:", toString book.id]
  Println ["Title:", book.title]
  if book.author ≠ "" then
    Println ["Author:", book.author]
  if book.addn_authors ≠ "" then
    Println ["Additional authors:", book.addn_authors]
  if book.state ≠ "" then
    Println ["State:", book.state]
  if !book.date_read.IsZero then
    Println ["Date Read:", book.date_read.Format]
  if book.stars > 0 then
    Println ["Stars:", toString book.stars]
  Println [""]

/-- The function `read_book` (lines 169-182). -/
def read_book (id : Nat) : Prog Unit := do
  if id > 0 then
    let book := Book.zero
    let row ← db_QueryRow (.by_id id)
    let (book, err) := row_Scan row book
    match err with
    | some .ErrNoRows => Println ["No book with that ID."]
    | some e => Println [e.Error]
    | none => book.print_record

/-- The function `add_book` (lines 65-102); each assignment to a field of `book`
gives the next value of `book`.  When `Exec` fails the error is printed and the
function goes on to call `LastInsertId` on the nil result. -/
def add_book (f : Flags) : Prog Unit := do
  let book := Book.zero
  let book ← (if f.title ≠ "" then pure { book with title := f.title }
    else go_panic "No title present!")
  let book := if f.author ≠ "" then { book with author := f.author } else book
  let book := if f.addn_authors ≠ "" then { book with addn_authors := f.addn_authors } else book
  let book := if f.state ≠ "" then { book with state := f.state } else book
  let book ← (if f.date_read ≠ "" then
      match time_Parse f.date_read with
      | none => go_panic "bad date string"
      | some t => pure { book with date_read := t }
    else pure book)
  let book := if f.stars > 0 then { book with stars := int64 f.stars } else book
  let (result, err) ← db_Exec
    (.insert book.title book.author book.addn_authors book.state book.date_read book.stars)
  if let some e := err then
    Println [e.Error]
  match result with
  | none => go_panic nilDereference
  | some result =>
    let (result_id, err) := result.LastInsertId
    if let some e := err then
      Println [e.Error]
    read_book (uint64 result_id)

/-- The statement pair `_, err := tx.Exec(stmt, args...)` and
`if err != nil { fmt.Println(err) }`, which `edit_book` writes for each field. -/
def tx_Exec_report (tx : Tx) (s : Stmt) : Prog Unit := do
  let (_, err) ← tx_Exec tx s
  if let some e := err then
    Println [e.Error]

/-- The body of `edit_book` after `defer tx.Commit()` (lines 114-155). -/
def edit_book_body (f : Flags) (id : Nat) (tx : Tx) : Prog Unit := do
  if f.title ≠ "" then
    tx_Exec_report tx (.update_title f.title id)
  if f.author ≠ "" then
    tx_Exec_report tx (.update_author f.author id)
  if f.addn_authors ≠ "" then
    tx_Exec_report tx (.update_addn_authors f.addn_authors id)
  if f.state ≠ "" then
    tx_Exec_report tx (.update_state f.state id)
  if f.date_read ≠ "" then
    match time_Parse f.date_read with
    | none =>
      Println ["bad date string"]
      return
    | some t =>
      tx_Exec_report tx (.update_date_read t id)
  if f.stars > 0 then
    tx_Exec_report tx (.update_stars f.stars id)

/-- The function `edit_book` (lines 104-157). -/
def edit_book (f : Flags) (id : Nat) : Prog Unit := do
  if id > 0 then
    let (tx, err) ← db_Begin
    if let some e := err then
      Println [e.Error]
      return
    match tx with
    | none => go_panic nilDereference
    | some tx => withDefer (tx_Commit tx) (edit_book_body f id tx)

/-- The function `delete_book` (lines 159-167). -/
def delete_book (id : Nat) : Prog Unit := do
  read_book id
  if id > 0 then
    let (_, err) ← db_Exec (.delete id)
    if let some e := err then
      Println [e.Error]

/-- The loop `for rows.Next()` with body `var book Book; _ = rows.Scan(...);
book.print_record()`, which the source writes five times: the error of `Scan` is
dropped and the book is printed with whatever fields were assigned. -/
def rows_loop : List Selected → Prog Unit
  | [] => pure ()
  | s :: rest => do
    let book := Book.zero
    let (book, _) := rows_Scan s book
    book.print_record
    rows_loop rest

/-- The statements `defer rows.Close()` and `for rows.Next() ...` on the cursor a
`Query` returned: calling `Next` on a nil `*sql.Rows` is a nil dereference. -/
def rows_each (rows : Option (List Selected)) : Prog Unit :=
  match rows with
  | none => go_panic nilDereference
  | some rows => rows_loop rows

/-- The function `search_books` (lines 184-237). -/
def search_books (f : Flags) : Prog Unit := do
  if f.title ≠ "" then
    let (rows, err) ← db_Query (.title_like f.title)
    if let some e := err then
      Println [e.Error]
    rows_each rows
  if f.author ≠ "" then
    let (rows, err) ← db_Query (.author_like f.author)
    if let some e := err then
      Println [e.Error]
    rows_each rows
  if f.addn_authors ≠ "" then
    let (rows, err) ← db_Query (.addn_authors_like f.addn_authors)
    if let some e := err then
      Println [e.Error]
    rows_each rows
  if f.state ≠ "" then
    let (rows, err) ← db_Query (.state_like f.state)
    if let some e := err then
      Println [e.Error]
    rows_each rows

/-- The function `list_all_books` (lines 239-251). -/
def list_all_books : Prog Unit := do
  let (rows, err) ← db_Query .all
  if let some e := err then
    Println [e.Error]
  rows_each rows

/-- The action dispatch of `main` (lines 264-281). -/
def main_dispatch (f : Flags) : Prog Unit := do
  if f.add_book_flag then
    if f.title ≠ "" then
      add_book f
    else
      Println ["A title is needed to add a record"]
  else if f.edit_book_flag > 0 then
    edit_book f f.edit_book_flag
    read_book f.edit_book_flag
  else if f.delete_book_flag > 0 then
    delete_book f.delete_book_flag
  else if f.read_book_flag > 0 then
    read_book f.read_book_flag
  else if f.search_books_flag then
    search_books f
  else if f.list_book_flag then
    list_all_books

/-- A storage whose calls all succeed, holding the given rows. -/
def DB.healthy (books : List Row) (seq now : Nat) : DB := ⟨books, seq, now, []⟩

/-- Running a function on a storage with an empty console. -/
def run {α : Type} (p : Prog α) (db : DB) : Res α := p ⟨db, []⟩

/-- A storage that accepts every call of a run: no fault is scheduled and the next
row id fits the signed 64-bit rowid. -/
def DB.Healthy (db : DB) : Prop := db.faults = [] ∧ db.nextId < 2 ^ 63

instance (db : DB) : Decidable db.Healthy := by
  unfold DB.Healthy
  exact inferInstance

/-- The lines `print_record` writes for a book: ID and title always, each further
line only when its field is set, then one empty line. -/
def record_lines (book : Book) : List String :=
  ["ID: " ++ toString book.id, "Title: " ++ book.title]
  ++ (if book.author ≠ "" then ["Author: " ++ book.author] else [])
  ++ (if book.addn_authors ≠ "" then ["Additional authors: " ++ book.addn_authors] else [])
  ++ (if book.state ≠ "" then ["State: " ++ book.state] else [])
  ++ (if book.date_read ≠ Time.zero then ["Date Read: " ++ book.date_read.Format] else [])
  ++ (if book.stars > 0 then ["Stars: " ++ toString book.stars] else [])
  ++ [""]

/-- The lines of a record as the specification words them: as `record_lines`, but
with the Stars line present whenever `stars` is non-zero. -/
def record_lines_spec (book : Book) : List String :=
  ["ID: " ++ toString book.id, "Title: " ++ book.title]
  ++ (if book.author ≠ "" then ["Author: " ++ book.author] else [])
  ++ (if book.addn_authors ≠ "" then ["Additional authors: " ++ book.addn_authors] else [])
  ++ (if book.state ≠ "" then ["State: " ++ book.state] else [])
  ++ (if book.date_read ≠ Time.zero then ["Date Read: " ++ book.date_read.Format] else [])
  ++ (if book.stars ≠ 0 then ["Stars: " ++ toString book.stars] else [])
  ++ [""]

/-- A guarded statement that executes without error: the storage after
`if c { Exec(s) }`. -/
def DB.applyIf (db : DB) (c : Prop) [Decidable c] (s : Stmt) : DB :=
  if c then (s.run db).2 else db

/-- The storage after the `date_read` block of `edit_book`, when its statement
executes without error: nothing happens for an empty or unparsable string. -/
def DB.applyDate (db : DB) (date_read : String) (id : Nat) : DB :=
  if date_read ≠ "" then
    match time_Parse date_read with
    | some t => (Stmt.run (.update_date_read t id) db).2
    | none => db
  else db

/-- The table after the UPDATE statements `edit_book` issues for the supplied fields,
in the order of the source, when `date_read` is empty or parses. -/
def DB.edited (db : DB) (f : Flags) (id : Nat) : DB :=
  let db := db.applyIf (f.title ≠ "") (.update_title f.title id)
  let db := db.applyIf (f.author ≠ "") (.update_author f.author id)
  let db := db.applyIf (f.addn_authors ≠ "") (.update_addn_authors f.addn_authors id)
  let db := db.applyIf (f.state ≠ "") (.update_state f.state id)
  let db := db.applyDate f.date_read id
  db.applyIf (f.stars > 0) (.update_stars f.stars id)

/-- What an edit with flags `f` on id `id` does to one row, `old` before and `new`
after: a row of another id is unchanged; a row of that id keeps its id, every supplied
field (non-empty string, stars > 0) holds the supplied value, the date as parsed and
the stars as the 64-bit integer the column stores, and every field not supplied keeps
its old value. -/
def Row.EditedBy (f : Flags) (id : Nat) (old new : Row) : Prop :=
  (old.id ≠ id → new = old)
  ∧ (old.id = id →
      new.id = id
      ∧ (f.title ≠ "" → new.title = f.title)
      ∧ (f.title = "" → new.title = old.title)
      ∧ (f.author ≠ "" → new.author = some f.author)
      ∧ (f.author = "" → new.author = old.author)
      ∧ (f.addn_authors ≠ "" → new.addn_authors = some f.addn_authors)
      ∧ (f.addn_authors = "" → new.addn_authors = old.addn_authors)
      ∧ (f.state ≠ "" → new.state = some f.state)
      ∧ (f.state = "" → new.state = old.state)
      ∧ (f.date_read ≠ "" → new.date_read = time_Parse f.date_read)
      ∧ (f.date_read = "" → new.date_read = old.date_read)
      ∧ (f.stars > 0 → new.stars = some (int64 f.stars))
      ∧ (f.stars = 0 → new.stars = old.stars)
      ∧ new.created_at = old.created_at)

/-- The console lines of one row of a multi-row read: the row is scanned into a fresh
`Book`, the scan error is dropped, and the book is printed. -/
def Row.rendered (r : Row) : List String := record_lines (rows_Scan r.select Book.zero).1

/-- The rows `search_books` prints, in order: for each of the patterns title, author,
addn_authors, state that is non-empty, the rows whose column of that name is LIKE the
pattern, in storage order; an empty pattern contributes nothing. -/
def search_hits (f : Flags) (db : DB) : List Row :=
  (if f.title ≠ "" then db.books.filter (Query.title_like f.title).selects else [])
  ++ (if f.author ≠ "" then db.books.filter (Query.author_like f.author).selects else [])
  ++ (if f.addn_authors ≠ "" then
        db.books.filter (Query.addn_authors_like f.addn_authors).selects else [])
  ++ (if f.state ≠ "" then db.books.filter (Query.state_like f.state).selects else [])

/-- The number of supplied search criteria a row matches. -/
def criteria_matched (f : Flags) (r : Row) : Nat :=
  (if f.title ≠ "" ∧ sqlLike (some r.title) f.title then 1 else 0)
  + (if f.author ≠ "" ∧ sqlLike r.author f.author then 1 else 0)
  + (if f.addn_authors ≠ "" ∧ sqlLike r.addn_authors f.addn_authors then 1 else 0)
  + (if f.state ≠ "" ∧ sqlLike r.state f.state then 1 else 0)

/-! ## Sample data -/

/-- A row as `add_book` writes it: no NULL, the zero day for an unset date. -/
def dune : Row := ⟨1, "Dune", some "Frank Herbert", some "", some "", some 5, some Time.zero, 100, 100⟩

/-- A row with NULL columns and a date. -/
def emma : Row := ⟨2, "Emma", some "Jane Austen", none, some "read", none, some ⟨2014, 2, 14, 0⟩, 100, 100⟩

/-- A storage of two rows whose calls all succeed. -/
def shelf : DB := DB.healthy [dune, emma] 2 200

/-- A LIKE pattern of 50001 bytes, one more than SQLite evaluates: 50001 times `%`. -/
def long_pattern : String := String.mk (List.replicate 50001 '%')

/-- Every row id fits SQLite's rowid, a signed 64-bit integer. -/
def DB.RowidsFit (db : DB) : Prop := ∀ r ∈ db.books, r.id < 2 ^ 63

/-- A piece of code that, started on the storage `db`, returns normally with the
storage as it was and at most some lines added to the console. -/
def OnlyPrints (db : DB) (p : Prog Unit) : Prop :=
  ∀ out, ∃ lines, p ⟨db, out⟩ = .ok () ⟨db, out ++ lines⟩

/-- A piece of code that always returns normally, whatever the world it starts in. -/
def Returns (p : Prog Unit) : Prop := ∀ w, ∃ w1, p w = .ok () w1

/-! ## Running programs: basic facts -/

theorem bind_apply {α β : Type} (m : Prog α) (f : α → Prog β) (w : World) :
    (m >>= f) w = match m w with
      | .ok a w1 => f a w1
      | .panicked msg w1 => .panicked msg w1 := rfl

theorem pure_apply {α : Type} (a : α) (w : World) : (pure a : Prog α) w = .ok a w := rfl

theorem Println_apply (args : List String) (w : World) :
    Println args w = .ok () { w with out := w.out ++ [" ".intercalate args] } := rfl

theorem go_panic_apply {α : Type} (msg : String) (w : World) :
    (go_panic msg : Prog α) w = .panicked msg w := rfl

theorem intercalate_two (a b : String) : " ".intercalate [a, b] = a ++ " " ++ b := by
  simp [String.intercalate, String.intercalate.go]

theorem intercalate_one (a : String) : " ".intercalate [a] = a := by
  simp [String.intercalate, String.intercalate.go]

/-- What `print_record` does to the world: it appends the lines of the record. -/
theorem print_record_apply (book : Book) (w : World) :
    book.print_record w = .ok () { w with out := w.out ++ record_lines book } := by
  unfold Book.print_record record_lines
  simp only [bind_apply, Println_apply, intercalate_two, intercalate_one, Time.IsZero]
  by_cases h1 : book.author = "" <;> by_cases h2 : book.addn_authors = ""
    <;> by_cases h3 : book.state = "" <;> by_cases h4 : book.date_read = Time.zero
    <;> by_cases h5 : book.stars > 0
    <;> simp [h1, h2, h3, h4, h5, bind_apply, pure_apply, Println_apply, intercalate_two,
          String.append_assoc]
    <;> rfl

/-! ## C7: the rendering rule -/

/-- C7, as amended: for every book, `print_record` returns normally, leaves the storage
alone and appends to the console, in this order, the ID line, the Title line, the
Author, Additional authors and State lines each exactly when that field is non-empty,
the Date Read line (formatted YYYY-MM-DD) exactly when `date_read` is not the zero
time, the Stars line exactly when `stars > 0`, and one empty line. -/
theorem print_record_renders (book : Book) (w : World) :
    book.print_record w = .ok () ⟨w.db, w.out ++
      (["ID: " ++ toString book.id, "Title: " ++ book.title]
        ++ (if book.author ≠ "" then ["Author: " ++ book.author] else [])
        ++ (if book.addn_authors ≠ "" then ["Additional authors: " ++ book.addn_authors]
            else [])
        ++ (if book.state ≠ "" then ["State: " ++ book.state] else [])
        ++ (if book.date_read ≠ Time.zero then ["Date Read: " ++ book.date_read.Format]
            else [])
        ++ (if book.stars > 0 then ["Stars: " ++ toString book.stars] else [])
        ++ [""])⟩ := by
  rw [print_record_apply]
  rfl

/-- C7, as stated, fails: a book whose `stars` is -1 has non-zero stars, yet
`print_record` writes no Stars line, so its output is not the list of lines the claim
describes, which has the line "Stars: -1". -/
theorem print_record_negative_stars :
    ({ Book.zero with id := 7, title := "Dune", stars := -1 } : Book).stars ≠ 0
    ∧ (run ({ Book.zero with id := 7, title := "Dune", stars := -1 } : Book).print_record
        (DB.healthy [] 0 0)).world.out = ["ID: 7", "Title: Dune", ""]
    ∧ record_lines_spec { Book.zero with id := 7, title := "Dune", stars := -1 }
        = ["ID: 7", "Title: Dune", "Stars: -1", ""]
    ∧ (run ({ Book.zero with id := 7, title := "Dune", stars := -1 } : Book).print_record
        (DB.healthy [] 0 0)).world.out
      ≠ record_lines_spec { Book.zero with id := 7, title := "Dune", stars := -1 } := by
  decide

theorem nextFault_healthy (db : DB) (h : db.faults = []) : db.nextFault = (none, db) := by
  unfold DB.nextFault
  rw [h]

theorem int64_small (n : Nat) (h : n < 2 ^ 63) : int64 n = (n : Int) := by
  unfold int64
  have h1 : n % 2 ^ 64 = n := Nat.mod_eq_of_lt (by omega)
  rw [h1, if_pos h]

theorem refusedArg_lt (position id : Nat) (h : id < 2 ^ 63) :
    refusedArg position id = none := by
  unfold refusedArg
  rw [if_neg (by omega)]

theorem refusedArg_ge (position id : Nat) (h : 2 ^ 63 ≤ id) :
    refusedArg position id = some (convError position) := by
  unfold refusedArg
  rw [if_pos h]

theorem db_Exec_healthy (s : Stmt) (w : World) (h : w.db.faults = []) (hs : s.refused = none) :
    db_Exec s w = .ok (some (s.run w.db).1, none) { w with db := (s.run w.db).2 } := by
  simp [db_Exec, nextFault_healthy _ h, hs]

theorem db_Exec_refused (s : Stmt) (w : World) (msg : String) (h : w.db.faults = [])
    (hs : s.refused = some msg) :
    db_Exec s w = .ok (none, some (.other msg)) w := by
  simp [db_Exec, nextFault_healthy _ h, hs]

theorem run_faults (s : Stmt) (db : DB) : (s.run db).2.faults = db.faults := by
  cases s <;> rfl

theorem tx_Exec_report_healthy (tx : Tx) (s : Stmt) (w : World) (h : w.db.faults = [])
    (hs : s.refused = none) :
    tx_Exec_report tx s w = .ok () { w with db := (s.run w.db).2 } := by
  simp [tx_Exec_report, tx_Exec, bind_apply, db_Exec_healthy _ _ h hs, pure_apply]

theorem edit_book_body_healthy (f : Flags) (id : Nat) (tx : Tx) (w : World)
    (hlt : id < 2 ^ 63) (h : w.db.faults = [])
    (hd : f.date_read = "" ∨ ∃ t, time_Parse f.date_read = some t) :
    edit_book_body f id tx w = .ok () { w with db := w.db.edited f id } := by
  have hx : ∀ (s : Stmt) (w1 : World), w1.db.faults = [] → s.refused = none →
      tx_Exec_report tx s w1 = .ok () { w1 with db := (s.run w1.db).2 } :=
    fun s w1 h1 h2 => tx_Exec_report_healthy tx s w1 h1 h2
  unfold edit_book_body DB.edited DB.applyIf DB.applyDate
  by_cases h1 : f.title = "" <;> by_cases h2 : f.author = ""
    <;> by_cases h3 : f.addn_authors = "" <;> by_cases h4 : f.state = ""
    <;> by_cases h6 : f.stars > 0 <;> by_cases h5 : f.date_read = ""
    <;> rcases hd with hd | ⟨t, hd⟩
    <;> first
      | contradiction
      | (simp only [h1, h2, h3, h4, h5, h6, hd, bind_apply, pure_apply, ne_eq,
          not_true_eq_false, not_false_eq_true, if_true, if_false]
          <;> first
            | rfl
            | simp (disch := first
                | simp only [run_faults, h]
                | simp only [Stmt.refused, refusedArg_lt _ _ hlt]) only [hx, bind_apply,
                pure_apply])


theorem db_Begin_healthy (w : World) (h : w.db.faults = []) :
    db_Begin w = .ok (some ⟨w.db.books, w.db.seq⟩, none) w := by
  simp [db_Begin, nextFault_healthy _ h]

theorem tx_Commit_healthy (tx : Tx) (w : World) (h : w.db.faults = []) :
    tx_Commit tx w = .ok () w := by
  simp [tx_Commit, nextFault_healthy _ h]

theorem applyIf_faults (c : Prop) [Decidable c] (s : Stmt) (db : DB) :
    (db.applyIf c s).faults = db.faults := by
  unfold DB.applyIf
  split_ifs
  · exact run_faults s db
  · rfl

theorem applyDate_faults (date_read : String) (id : Nat) (db : DB) :
    (db.applyDate date_read id).faults = db.faults := by
  unfold DB.applyDate
  split_ifs
  · split
    · exact run_faults _ db
    · rfl
  · rfl

theorem edited_faults (db : DB) (f : Flags) (id : Nat) : (db.edited f id).faults = db.faults := by
  unfold DB.edited
  simp only [applyIf_faults, applyDate_faults]

theorem edit_book_healthy (f : Flags) (id : Nat) (w : World) (hid : 0 < id)
    (hlt : id < 2 ^ 63) (h : w.db.faults = [])
    (hd : f.date_read = "" ∨ ∃ t, time_Parse f.date_read = some t) :
    edit_book f id w = .ok () { w with db := w.db.edited f id } := by
  have hc := tx_Commit_healthy ⟨w.db.books, w.db.seq⟩ { w with db := w.db.edited f id }
    (by rw [edited_faults]; exact h)
  simp [edit_book, hid, bind_apply, pure_apply, db_Begin_healthy _ h, withDefer,
    edit_book_body_healthy f id _ w hlt h hd, hc, Res.world]

/-- What a successful parse says about the string and the time. -/
theorem time_Parse_some (s : String) (t : Time) (h : time_Parse s = some t) :
    ∃ y1 y2 y3 y4 m1 m2 d1 d2 : Char,
      s.toList = [y1, y2, y3, y4, '-', m1, m2, '-', d1, d2]
      ∧ (isDigit y1 ∧ isDigit y2 ∧ isDigit y3 ∧ isDigit y4)
      ∧ (isDigit m1 ∧ isDigit m2 ∧ isDigit d1 ∧ isDigit d2)
      ∧ t = ⟨((1000 * digitVal y1 + 100 * digitVal y2 + 10 * digitVal y3 + digitVal y4 : Nat)
              : Int), 10 * digitVal m1 + digitVal m2, 10 * digitVal d1 + digitVal d2, 0⟩
      ∧ 1 ≤ 10 * digitVal m1 + digitVal m2 ∧ 1 ≤ 10 * digitVal d1 + digitVal d2 := by
  unfold time_Parse at h
  split at h
  · rename_i y1 y2 y3 y4 s1 m1 m2 s2 d1 d2 heq
    simp only [] at h
    split_ifs at h with hc hm hday
    simp only [Bool.and_eq_true, decide_eq_true_eq] at hc
    obtain ⟨⟨⟨⟨⟨⟨⟨⟨⟨a1, a2⟩, a3⟩, a4⟩, e1⟩, a5⟩, a6⟩, e2⟩, a7⟩, a8⟩ := hc
    subst e1 e2
    cases h
    refine ⟨y1, y2, y3, y4, m1, m2, d1, d2, heq, ⟨a1, a2, a3, a4⟩, ⟨a5, a6, a7, a8⟩, rfl, ?_, ?_⟩
    · omega
    · omega
  · cases h

theorem time_Parse_nsec (s : String) (t : Time) (h : time_Parse s = some t) : t.nsec = 0 := by
  obtain ⟨y1, y2, y3, y4, m1, m2, d1, d2, -, -, -, ht, -, -⟩ := time_Parse_some s t h
  rw [ht]

theorem sqlDate_parsed (s : String) (t : Time) (h : time_Parse s = some t) : sqlDate t = t := by
  have := time_Parse_nsec s t h
  cases t
  simp_all [sqlDate]


theorem db_Query_healthy (q : Query) (w : World) (h : w.db.faults = [])
    (hq : q.refused = none) :
    db_Query q w = .ok (some (q.run w.db), none) w := by
  simp [db_Query, nextFault_healthy _ h, hq]

theorem db_QueryRow_healthy (q : Query) (w : World) (h : w.db.faults = [])
    (hq : q.refused = none) :
    db_QueryRow q w = .ok ⟨none, q.run w.db⟩ w := by
  simp [db_QueryRow, nextFault_healthy _ h, hq]

theorem db_QueryRow_refused (q : Query) (w : World) (msg : String) (h : w.db.faults = [])
    (hq : q.refused = some msg) :
    db_QueryRow q w = .ok ⟨some (.other msg), []⟩ w := by
  simp [db_QueryRow, nextFault_healthy _ h, hq]

theorem by_id_run (id : Nat) (db : DB) :
    (Query.by_id id).run db = (db.books.filter (Query.by_id id).selects).map Row.select := by
  simp [Query.run, Query.tooComplex]

/-- Reading an id no row carries prints the not-found message. -/
theorem read_book_absent (id : Nat) (w : World) (hid : 0 < id) (hlt : id < 2 ^ 63)
    (h : w.db.faults = []) (hno : ∀ r ∈ w.db.books, r.id ≠ id) :
    read_book id w = .ok () { w with out := w.out ++ ["No book with that ID."] } := by
  have hq : (Query.by_id id).run w.db = [] := by
    simp only [by_id_run, List.map_eq_nil_iff, List.filter_eq_nil_iff]
    intro r hr
    simpa [Query.selects] using hno r hr
  have hr : (Query.by_id id).refused = none := refusedArg_lt 1 id hlt
  simp [read_book, hid, bind_apply, db_QueryRow_healthy _ _ h hr, hq, row_Scan, Println_apply,
    intercalate_one]

/-- On a storage whose calls succeed, reading returns normally and only prints. -/
theorem read_book_healthy (id : Nat) (w : World) (h : w.db.faults = []) :
    ∃ lines, read_book id w = .ok () { w with out := w.out ++ lines } := by
  unfold read_book
  by_cases hid : id > 0
  · have hrow : ∃ row, db_QueryRow (.by_id id) w = .ok row w := by
      cases hr : (Query.by_id id).refused with
      | none => exact ⟨_, db_QueryRow_healthy _ _ h hr⟩
      | some msg => exact ⟨_, db_QueryRow_refused _ _ msg h hr⟩
    obtain ⟨row, hrow⟩ := hrow
    simp only [hid, if_true, bind_apply, hrow]
    generalize row_Scan _ _ = sc
    obtain ⟨book, err⟩ := sc
    cases err with
    | none => exact ⟨_, print_record_apply _ _⟩
    | some e =>
      cases e with
      | ErrNoRows => exact ⟨_, rfl⟩
      | other msg => exact ⟨_, rfl⟩
  · exact ⟨[], by simp [hid, pure_apply]⟩

/-! ## C6: id 0 -/

/-- C6: with id 0, each of `read_book`, `edit_book` and `delete_book` returns normally
and leaves the whole world as it was, whatever the table, the fault schedule and the
field flags: the table is unchanged and nothing is written to the console. -/
theorem id_zero_noop (f : Flags) (w : World) :
    read_book 0 w = .ok () w ∧ edit_book f 0 w = .ok () w ∧ delete_book 0 w = .ok () w := by
  refine ⟨?_, ?_, ?_⟩
  · simp [read_book, pure_apply]
  · simp [edit_book, pure_apply]
  · simp [delete_book, read_book, bind_apply, pure_apply]

/-! ## C4: a record needs a title -/

/-- C4: when the title is empty, `add_book` panics with "No title present!" before
any storage call, so the world (table, counter, fault schedule, console) is the one
before the call; and `main`, asked to add, does not call `add_book` at all: it prints
"A title is needed to add a record" and leaves the storage as it was. -/
theorem add_book_empty_title (f : Flags) (w : World) (h : f.title = "") :
    add_book f w = .panicked "No title present!" w
    ∧ main_dispatch { f with add_book_flag := true } w
        = .ok () ⟨w.db, w.out ++ ["A title is needed to add a record"]⟩ := by
  constructor
  · simp [add_book, h, bind_apply, go_panic_apply]
  · simp [main_dispatch, h, Println_apply, intercalate_one]

/-- C4 at a concrete input: author and stars given, no title, on the sample shelf. -/
theorem add_book_empty_title_witness :
    add_book { author := "Frank Herbert", stars := 5 } ⟨shelf, []⟩
      = .panicked "No title present!" ⟨shelf, []⟩
    ∧ main_dispatch { author := "Frank Herbert", stars := 5, add_book_flag := true } ⟨shelf, []⟩
        = .ok () ⟨shelf, ["A title is needed to add a record"]⟩ :=
  add_book_empty_title { author := "Frank Herbert", stars := 5 } ⟨shelf, []⟩ rfl

/-! ## C5: delete, then read -/

/-- C5, as amended: for every table and every id with 0 < id < 2^63, on a storage
whose calls are not interrupted, `delete_book id` returns normally, the table afterwards
is the old one without the rows of that id (so no row has that id and every row with
another id is still there, unchanged), and a following `read_book id` prints exactly
"No book with that ID." -/
theorem delete_then_read (db : DB) (id : Nat) (hid : 0 < id) (hlt : id < 2 ^ 63)
    (hf : db.faults = []) :
    (run (delete_book id) db).panicMsg = none
    ∧ (run (delete_book id) db).world.db.books = db.books.filter (fun r => decide (r.id ≠ id))
    ∧ (∀ r ∈ (run (delete_book id) db).world.db.books, r.id ≠ id)
    ∧ (∀ r ∈ db.books, r.id ≠ id → r ∈ (run (delete_book id) db).world.db.books)
    ∧ run (read_book id) (run (delete_book id) db).world.db
        = .ok () ⟨(run (delete_book id) db).world.db, ["No book with that ID."]⟩ := by
  obtain ⟨lines, hl⟩ := read_book_healthy id ⟨db, []⟩ hf
  have hrun : run (delete_book id) db
      = .ok () ⟨{ db with books := db.books.filter (fun r => decide (r.id ≠ id)) }, lines⟩ := by
    simp [run, delete_book, bind_apply, hl, hid,
      db_Exec_healthy (.delete id) ⟨db, lines⟩ hf (refusedArg_lt 1 id hlt), Stmt.run, pure_apply]
  rw [hrun]
  refine ⟨rfl, rfl, ?_, ?_, ?_⟩
  · intro r hr
    simpa using (List.mem_filter.mp hr).2
  · intro r hr hne
    exact List.mem_filter.mpr ⟨hr, by simpa using hne⟩
  · have := read_book_absent id
      ⟨{ db with books := db.books.filter (fun r => decide (r.id ≠ id)) }, []⟩ hid hlt hf
      (by intro r hr; simpa using (List.mem_filter.mp hr).2)
    simpa [run, Res.world] using this

/-- C5 at a concrete input: deleting id 1 from the sample shelf leaves the other row,
and reading id 1 afterwards prints the not-found message. -/
theorem delete_then_read_witness :
    (run (delete_book 1) shelf).world.db.books = [emma]
    ∧ run (read_book 1) (run (delete_book 1) shelf).world.db
        = .ok () ⟨(run (delete_book 1) shelf).world.db, ["No book with that ID."]⟩ :=
  ⟨by decide, (delete_then_read shelf 1 (by decide) (by decide) rfl).2.2.2.2⟩

/-- C5, as stated, fails: 2^63 is an id > 0 that the `uint64` flags accept, but
`database/sql` refuses to pass it on, so after `delete_book` (which prints the refusal
twice and deletes nothing) a `read_book` of that id prints the conversion error and not
"No book with that ID." -/
theorem delete_then_read_high_id :
    run (delete_book 9223372036854775808) shelf
      = .ok () ⟨shelf,
          ["sql: converting argument $1 type: uint64 values with high bit set are not supported",
           "sql: converting argument $1 type: uint64 values with high bit set are not supported"]⟩
    ∧ run (read_book 9223372036854775808) (run (delete_book 9223372036854775808) shelf).world.db
      = .ok () ⟨shelf,
          ["sql: converting argument $1 type: uint64 values with high bit set are not supported"]⟩
    ∧ (run (read_book 9223372036854775808)
          (run (delete_book 9223372036854775808) shelf).world.db).world.out
        ≠ ["No book with that ID."] := by
  decide


theorem run_now (s : Stmt) (db : DB) : (s.run db).2.now = db.now := by
  cases s <;> rfl

theorem applyIf_now (c : Prop) [Decidable c] (s : Stmt) (db : DB) :
    (db.applyIf c s).now = db.now := by
  unfold DB.applyIf
  split_ifs
  · exact run_now s db
  · rfl

theorem applyDate_now (date_read : String) (id : Nat) (db : DB) :
    (db.applyDate date_read id).now = db.now := by
  unfold DB.applyDate
  split_ifs
  · split
    · exact run_now _ db
    · rfl
  · rfl

/-- A guarded UPDATE maps the table row by row. -/
theorem applyIf_books (c : Prop) [Decidable c] (s : Stmt) (id : Nat) (g : Row → Row) (db : DB)
    (hs : ∀ d : DB, (s.run d).2 = d.update id g) :
    (db.applyIf c s).books
      = db.books.map (fun r => if c ∧ r.id = id then Row.touch (g r) db.now else r) := by
  unfold DB.applyIf
  by_cases hc : c
  · simp [hc, hs db, DB.update]
  · simp [hc]

/-- The `date_read` block maps the table row by row. -/
theorem applyDate_books (date_read : String) (id : Nat) (db : DB) :
    (db.applyDate date_read id).books
      = db.books.map (fun r => if date_read ≠ "" ∧ r.id = id then
          (match time_Parse date_read with
            | some t => Row.touch { r with date_read := some (sqlDate t) } db.now
            | none => r) else r) := by
  unfold DB.applyDate
  by_cases hc : date_read = ""
  · simp [hc]
  · cases hp : time_Parse date_read with
    | none => simp [hc]
    | some t => simp [hc, Stmt.run, DB.update]

theorem edited_rows (db : DB) (f : Flags) (id : Nat)
    (hd : f.date_read = "" ∨ ∃ t, time_Parse f.date_read = some t) :
    List.Forall₂ (Row.EditedBy f id) db.books (db.edited f id).books := by
  unfold DB.edited
  simp only []
  rw [applyIf_books _ (.update_stars f.stars id) id
      (fun r => { r with stars := some (int64 f.stars) }) _ (fun _ => rfl),
    applyDate_books,
    applyIf_books _ (.update_state f.state id) id
      (fun r => { r with state := some f.state }) _ (fun _ => rfl),
    applyIf_books _ (.update_addn_authors f.addn_authors id) id
      (fun r => { r with addn_authors := some f.addn_authors }) _ (fun _ => rfl),
    applyIf_books _ (.update_author f.author id) id
      (fun r => { r with author := some f.author }) _ (fun _ => rfl),
    applyIf_books _ (.update_title f.title id) id
      (fun r => { r with title := f.title }) _ (fun _ => rfl)]
  simp only [applyIf_now, applyDate_now, List.map_map]
  rw [List.forall₂_map_right_iff, List.forall₂_same]
  intro r _
  by_cases hr : r.id = id
  · have h7 : f.stars = 0 ↔ ¬ 0 < f.stars := by omega
    rcases hd with hd3 | ⟨t, hd3⟩
    · by_cases h1 : f.title = "" <;> by_cases h2 : f.author = ""
        <;> by_cases h3 : f.addn_authors = "" <;> by_cases h4 : f.state = ""
        <;> by_cases h6 : 0 < f.stars
        <;> simp only [Function.comp_apply, hr, h1, h2, h3, h4, h6, hd3, Row.touch, ne_eq,
          not_true_eq_false, not_false_eq_true, and_true, and_false, true_and, false_and,
          if_true, if_false, gt_iff_lt]
        <;> simp [Row.EditedBy, h1, h2, h3, h4, h6, h7, hd3, hr]
    · have hs := sqlDate_parsed _ _ hd3
      by_cases h1 : f.title = "" <;> by_cases h2 : f.author = ""
        <;> by_cases h3 : f.addn_authors = "" <;> by_cases h4 : f.state = ""
        <;> by_cases h6 : 0 < f.stars <;> by_cases h5 : f.date_read = ""
        <;> simp only [Function.comp_apply, hr, h1, h2, h3, h4, h5, h6, hd3, hs, Row.touch,
          ne_eq, not_true_eq_false, not_false_eq_true, and_true, and_false, true_and,
          false_and, if_true, if_false, gt_iff_lt]
        <;> simp [Row.EditedBy, h1, h2, h3, h4, h5, h6, h7, hd3, hr]
  · simp [Row.EditedBy, hr]

/-! ## C1: what an edit changes -/

theorem onlyPrints_pure (db : DB) : OnlyPrints db (pure PUnit.unit) :=
  fun out => ⟨[], by rw [pure_apply, List.append_nil]⟩

theorem onlyPrints_Println (db : DB) (args : List String) : OnlyPrints db (Println args) :=
  fun _ => ⟨_, rfl⟩

theorem onlyPrints_bind (db : DB) (p : Prog Unit) (q : Unit → Prog Unit)
    (hp : OnlyPrints db p) (hq : OnlyPrints db (q ())) : OnlyPrints db (p >>= q) := by
  intro out
  obtain ⟨l1, h1⟩ := hp out
  obtain ⟨l2, h2⟩ := hq (out ++ l1)
  exact ⟨l1 ++ l2, by rw [bind_apply, h1]; simp only [h2, List.append_assoc]⟩

theorem onlyPrints_ite (db : DB) (c : Prop) [Decidable c] (p q : Prog Unit)
    (hp : OnlyPrints db p) (hq : OnlyPrints db q) : OnlyPrints db (if c then p else q) := by
  by_cases h : c
  · rw [if_pos h]; exact hp
  · rw [if_neg h]; exact hq

/-- A statement whose id the driver refuses only prints the conversion error. -/
theorem onlyPrints_report (db : DB) (tx : Tx) (s : Stmt) (msg : String) (h : db.faults = [])
    (hs : s.refused = some msg) : OnlyPrints db (tx_Exec_report tx s) := by
  intro out
  refine ⟨[msg], ?_⟩
  simp [tx_Exec_report, tx_Exec, bind_apply, db_Exec_refused s ⟨db, out⟩ msg h hs, Println_apply,
    intercalate_one, SqlError.Error]

theorem edit_book_body_refused (db : DB) (f : Flags) (id : Nat) (tx : Tx)
    (hge : 2 ^ 63 ≤ id) (h : db.faults = []) : OnlyPrints db (edit_book_body f id tx) := by
  unfold edit_book_body
  repeat' first
    | exact onlyPrints_pure _
    | exact onlyPrints_Println _ _
    | exact onlyPrints_report _ _ _ (convError 2) h (refusedArg_ge 2 id hge)
    | apply onlyPrints_ite
    | apply onlyPrints_bind
    | split

/-- With an id of 2^63 or more, on a storage whose calls are not interrupted, every
UPDATE of `edit_book` is refused: the table stays as it was. -/
theorem edit_book_refused (db : DB) (f : Flags) (id : Nat) (hid : 0 < id) (hge : 2 ^ 63 ≤ id)
    (h : db.faults = []) :
    ∃ lines, run (edit_book f id) db = .ok () ⟨db, lines⟩ := by
  obtain ⟨lines, hb⟩ := edit_book_body_refused db f id ⟨db.books, db.seq⟩ hge h []
  rw [List.nil_append] at hb
  refine ⟨lines, ?_⟩
  have hc := tx_Commit_healthy ⟨db.books, db.seq⟩ ⟨db, lines⟩ h
  simp only [run, edit_book, hid, gt_iff_lt, if_true, bind_apply, pure_apply,
    db_Begin_healthy ⟨db, []⟩ h, withDefer, hb, hc, Res.world, List.nil_append]

/-- C1, as amended: for every table (its row ids being SQLite rowids), every id > 0 and
every combination of edit flags whose `date_read` is empty or parses as YYYY-MM-DD, on a
storage whose calls are not interrupted: `edit_book` returns normally, and the table
afterwards has the same rows in the same order, where every row of that id holds each
supplied string field, the parsed date for a supplied `date_read`, and for supplied
stars the signed 64-bit integer `int64 stars` that the column stores, which is the
supplied number itself when that is below 2^63; every field not supplied keeps its value
and every row of another id is unchanged.  For an id below 2^63 nothing is printed. -/
theorem edit_book_frame (db : DB) (f : Flags) (id : Nat) (hid : 0 < id)
    (hf : db.faults = []) (hwf : db.RowidsFit)
    (hd : f.date_read = "" ∨ (time_Parse f.date_read).isSome) :
    (run (edit_book f id) db).panicMsg = none
    ∧ (id < 2 ^ 63 → (run (edit_book f id) db).world.out = [])
    ∧ List.Forall₂ (Row.EditedBy f id) db.books (run (edit_book f id) db).world.db.books
    ∧ (f.stars < 2 ^ 63 → int64 f.stars = (f.stars : Int)) := by
  have hd2 : f.date_read = "" ∨ ∃ t, time_Parse f.date_read = some t := by
    rcases hd with hd | hd
    · exact Or.inl hd
    · exact Or.inr (Option.isSome_iff_exists.mp hd)
  by_cases hlt : id < 2 ^ 63
  · have hrun := edit_book_healthy f id ⟨db, []⟩ hid hlt hf hd2
    simp only [run, hrun, Res.panicMsg, Res.world, true_and, implies_true]
    exact ⟨edited_rows db f id hd2, int64_small f.stars⟩
  · obtain ⟨lines, hrun⟩ := edit_book_refused db f id hid (by omega) hf
    rw [hrun]
    refine ⟨rfl, fun h => absurd h hlt, ?_, int64_small f.stars⟩
    simp only [Res.world]
    rw [List.forall₂_same]
    intro r hr
    have hr2 := hwf r hr
    exact ⟨fun _ => rfl, fun h => by omega⟩

/-- C1 at a concrete input: title, date and stars supplied for id 1 of the sample
shelf; author, additional authors and state keep their values, the other row is
untouched. -/
theorem edit_book_frame_witness :
    List.Forall₂ (Row.EditedBy { title := "Dune Messiah", date_read := "2014-02-14", stars := 4 } 1)
      shelf.books
      (run (edit_book { title := "Dune Messiah", date_read := "2014-02-14", stars := 4 } 1)
        shelf).world.db.books
    ∧ (run (edit_book { title := "Dune Messiah", date_read := "2014-02-14", stars := 4 } 1)
        shelf).world.db.books
      = [⟨1, "Dune Messiah", some "Frank Herbert", some "", some "", some 4,
          some ⟨2014, 2, 14, 0⟩, 100, 200⟩, emma] :=
  ⟨(edit_book_frame shelf { title := "Dune Messiah", date_read := "2014-02-14", stars := 4 } 1
      (by decide) rfl (by unfold DB.RowidsFit; decide) (Or.inr (by decide))).2.2.1, by decide⟩

/-- C1, as stated, fails: with stars 2^63 supplied for id 1 of the sample shelf, the
row does not hold the supplied value afterwards but -2^63. -/
theorem edit_book_stars_wrap :
    (run (edit_book { stars := 9223372036854775808 } 1) shelf).world.db.books
      = [⟨1, "Dune", some "Frank Herbert", some "", some "", some (-9223372036854775808),
          some Time.zero, 100, 200⟩, emma]
    ∧ ¬ (∀ r ∈ (run (edit_book { stars := 9223372036854775808 } 1) shelf).world.db.books,
          r.id = 1 → r.stars = some 9223372036854775808) := by
  decide

/-! ## C2: an unparsable date -/

/-- C2 on a concrete input: editing id 1 of the sample shelf with a title, an
unparsable date and stars 3 prints "bad date string" and returns at once; the title
update issued before is committed, but the stars update that follows in the source is
never reached, so the row keeps its old stars 5. -/
theorem edit_book_bad_date_skips_stars :
    time_Parse "tomorrow" = none
    ∧ run (edit_book { title := "Dune Messiah", date_read := "tomorrow", stars := 3 } 1) shelf
      = .ok () ⟨{ shelf with books :=
          [⟨1, "Dune Messiah", some "Frank Herbert", some "", some "", some 5,
            some Time.zero, 100, 200⟩, emma] }, ["bad date string"]⟩ := by
  decide


theorem int64_zero : int64 0 = 0 := by decide

theorem db_Exec_insert (title author addn_authors state : String) (t : Time) (stars : Int)
    (w : World) (h : w.db.faults = []) :
    db_Exec (.insert title author addn_authors state t stars) w
      = .ok (some ((Stmt.insert title author addn_authors state t stars).run w.db).1, none)
          { w with db := ((Stmt.insert title author addn_authors state t stars).run w.db).2 } :=
  db_Exec_healthy _ w h rfl

/-- On a storage whose calls succeed, `add_book` inserts the row built from the flags
and reads it back. -/
theorem add_book_healthy (f : Flags) (w : World) (t : Time) (h : w.db.faults = [])
    (ht : f.title ≠ "")
    (hd : (f.date_read = "" ∧ t = Time.zero) ∨ (f.date_read ≠ "" ∧ time_Parse f.date_read = some t)) :
    add_book f w
      = read_book (uint64 (w.db.nextId : Int))
          { w with db := (Stmt.run
              (.insert f.title f.author f.addn_authors f.state t (int64 f.stars)) w.db).2 } := by
  unfold add_book
  by_cases h2 : f.author = "" <;> by_cases h3 : f.addn_authors = ""
    <;> by_cases h4 : f.state = "" <;> by_cases h6 : f.stars > 0
    <;> by_cases h5 : f.date_read = ""
    <;> rcases hd with ⟨hd, hz⟩ | ⟨hne, hd⟩
    <;> first
      | contradiction
      | (have h7 : f.stars = 0 := by omega
         simp only [ht, h2, h3, h4, h5, h6, h7, hd, bind_apply, pure_apply, ne_eq,
           not_true_eq_false, not_false_eq_true, if_true, if_false, Book.zero, gt_iff_lt,
           lt_self_iff_false, db_Exec_insert _ _ _ _ _ _ _ h, Result.LastInsertId, Stmt.run, int64_zero]
          <;> first | rfl | (subst hz; rfl))
      | (simp only [ht, h2, h3, h4, h5, h6, hd, bind_apply, pure_apply, ne_eq,
           not_true_eq_false, not_false_eq_true, if_true, if_false, Book.zero, gt_iff_lt,
           db_Exec_insert _ _ _ _ _ _ _ h, Result.LastInsertId, Stmt.run]
          <;> first | rfl | (subst hz; rfl))


theorem uint64_natCast (n : Nat) (h : n < 2 ^ 64) : uint64 (n : Int) = n := by
  unfold uint64
  omega

theorem foldr_max_ge (books : List Row) :
    ∀ r ∈ books, r.id ≤ books.foldr (fun r m => max r.id m) 0 := by
  induction books with
  | nil => intro r hr; cases hr
  | cons a rest ih =>
    intro r hr
    simp only [List.foldr_cons]
    rcases List.mem_cons.mp hr with h | h
    · subst h
      exact le_max_left _ _
    · exact le_trans (ih r h) (le_max_right _ _)

/-- The next id is larger than every id in the table, and positive. -/
theorem nextId_fresh (db : DB) : 0 < db.nextId ∧ ∀ r ∈ db.books, r.id < db.nextId := by
  unfold DB.nextId
  refine ⟨by omega, fun r hr => ?_⟩
  have := foldr_max_ge db.books r hr
  have := le_max_right db.seq (db.books.foldr (fun r m => max r.id m) 0)
  omega

/-- After an INSERT, the query by the new id returns the new row alone. -/
theorem by_id_inserted (db : DB) (row : Row) (seq now : Nat) (faults : List (Option String))
    (hrow : row.id = db.nextId) :
    (Query.by_id db.nextId).run ⟨db.books ++ [row], seq, now, faults⟩ = [row.select] := by
  have hold : db.books.filter (Query.by_id db.nextId).selects = [] := by
    rw [List.filter_eq_nil_iff]
    intro r hr
    have := (nextId_fresh db).2 r hr
    simp only [Query.selects, decide_eq_true_eq]
    omega
  simp [by_id_run, List.filter_append, hold, Query.selects, hrow]

/-- Reading an id whose first matching row has no NULL in `author`, `state` and
`date_read` prints that row as a record. -/
theorem read_book_found (id : Nat) (w : World) (s : Selected) (rest : List Selected)
    (author state : String) (t : Time) (hid : 0 < id) (hlt : id < 2 ^ 63)
    (h : w.db.faults = []) (hq : (Query.by_id id).run w.db = s :: rest)
    (ha : s.author = some author) (hs : s.state = some state) (ht : s.date_read = some t) :
    read_book id w
      = Book.print_record ⟨(s.id : Int), s.title, author, s.addn_authors, state, s.stars, t,
          Time.zero, Time.zero⟩ w := by
  simp only [read_book, hid, gt_iff_lt, if_true, bind_apply,
    db_QueryRow_healthy (.by_id id) w h (refusedArg_lt 1 id hlt), hq, row_Scan, rows_Scan, ha,
    hs, ht, Book.zero]

/-- On a storage whose calls succeed, `add_book` with a title and a date `d` (the
parsed `date_read`, or the zero time when none is given) appends one row under the next
id and prints that row as a record. -/
theorem add_book_run (db : DB) (f : Flags) (d : Time) (hh : db.Healthy) (ht : f.title ≠ "")
    (hd : (f.date_read = "" ∧ d = Time.zero)
      ∨ (f.date_read ≠ "" ∧ time_Parse f.date_read = some d)) :
    run (add_book f) db
      = .ok () ⟨⟨db.books ++ [⟨db.nextId, f.title, some f.author, some f.addn_authors,
            some f.state, some (int64 f.stars), some d, db.now, db.now⟩],
          db.nextId, db.now, db.faults⟩,
        record_lines ⟨(db.nextId : Int), f.title, f.author, f.addn_authors, f.state,
          int64 f.stars, d, Time.zero, Time.zero⟩⟩ := by
  obtain ⟨hf, hn⟩ := hh
  have hsd : sqlDate d = d := by
    rcases hd with ⟨_, hz⟩ | ⟨_, hs⟩
    · rw [hz]; rfl
    · exact sqlDate_parsed _ _ hs
  have hrun := add_book_healthy f ⟨db, []⟩ d hf ht hd
  have hu : uint64 (db.nextId : Int) = db.nextId := uint64_natCast _ (by omega)
  have hpos := (nextId_fresh db).1
  have hq := by_id_inserted db ⟨db.nextId, f.title, some f.author, some f.addn_authors,
    some f.state, some (int64 f.stars), some d, db.now, db.now⟩ db.nextId db.now db.faults rfl
  have hread := read_book_found db.nextId ⟨⟨db.books ++ [⟨db.nextId, f.title, some f.author,
      some f.addn_authors, some f.state, some (int64 f.stars), some d, db.now, db.now⟩],
      db.nextId, db.now, db.faults⟩, []⟩ _ _ f.author f.state d hpos hn hf hq rfl rfl rfl
  simp only [run, hrun, hu, Stmt.run, hsd, hread, print_record_apply, Row.select, Option.getD,
    List.nil_append]

/-- The date `add_book` stores: the parsed `date_read`, or the zero time. -/
theorem add_book_date (f : Flags) (hd : f.date_read = "" ∨ (time_Parse f.date_read).isSome) :
    (f.date_read = "" ∧ (time_Parse f.date_read).getD Time.zero = Time.zero)
      ∨ (f.date_read ≠ "" ∧ time_Parse f.date_read
          = some ((time_Parse f.date_read).getD Time.zero)) := by
  have hp0 : time_Parse "" = none := by decide
  by_cases h5 : f.date_read = ""
  · exact Or.inl ⟨h5, by rw [h5, hp0]; rfl⟩
  · rcases hd with hd | hd
    · exact absurd hd h5
    · obtain ⟨t, ht⟩ := Option.isSome_iff_exists.mp hd
      exact Or.inr ⟨h5, by rw [ht]; rfl⟩

/-! ## C3: adding a record -/

/-- C3, as amended: for every table and every `add_book` input with a non-empty title
and a `date_read` that is empty or parses as YYYY-MM-DD, on a storage whose calls are not
interrupted and whose next row id fits the rowid: `add_book` returns normally; the table
afterwards is the old one followed by exactly one new row, which holds the supplied
fields under an id that no existing row carries; and the console output is the output
of `print_record` on the book with that id and the supplied fields, where the stars are
the signed 64-bit integer `int64 stars` the source converts them to, which is the
supplied number itself when that is below 2^63, and an empty date is the zero time. -/
theorem add_book_echo (db : DB) (f : Flags) (hh : db.Healthy) (ht : f.title ≠ "")
    (hd : f.date_read = "" ∨ (time_Parse f.date_read).isSome) :
    (run (add_book f) db).panicMsg = none
    ∧ (run (add_book f) db).world.db.books
        = db.books ++ [⟨db.nextId, f.title, some f.author, some f.addn_authors, some f.state,
            some (int64 f.stars), some ((time_Parse f.date_read).getD Time.zero), db.now, db.now⟩]
    ∧ (∀ r ∈ db.books, r.id ≠ db.nextId)
    ∧ (run (add_book f) db).world.out
        = (run (Book.print_record ⟨(db.nextId : Int), f.title, f.author, f.addn_authors, f.state,
            int64 f.stars, (time_Parse f.date_read).getD Time.zero, Time.zero, Time.zero⟩)
            db).world.out
    ∧ (f.stars < 2 ^ 63 → int64 f.stars = (f.stars : Int)) := by
  rw [add_book_run db f _ hh ht (add_book_date f hd)]
  simp only [run, print_record_apply, Res.panicMsg, Res.world, List.nil_append, true_and]
  exact ⟨fun r hr => by have := (nextId_fresh db).2 r hr; omega, int64_small f.stars⟩

/-- C3 at the input of the specification, on the sample shelf of two rows: title
"Dune", author "Frank Herbert" and stars 5 append one row under the new id 3, leave the
two rows as they were, and print the ID, title, author and stars lines and a blank line,
with no State and no Date Read line. -/
theorem add_book_echo_witness :
    (run (add_book { title := "Dune", author := "Frank Herbert", stars := 5 }) shelf).world.db.books
      = [dune, emma, ⟨3, "Dune", some "Frank Herbert", some "", some "", some 5,
          some Time.zero, 200, 200⟩]
    ∧ (∀ r ∈ shelf.books, r.id ≠ 3)
    ∧ (run (add_book { title := "Dune", author := "Frank Herbert", stars := 5 }) shelf).world.out
      = (run (Book.print_record ⟨3, "Dune", "Frank Herbert", "", "", 5, Time.zero, Time.zero,
          Time.zero⟩) shelf).world.out
    ∧ (run (add_book { title := "Dune", author := "Frank Herbert", stars := 5 }) shelf).world.out
      = ["ID: 3", "Title: Dune", "Author: Frank Herbert", "Stars: 5", ""] :=
  ⟨by decide,
   (add_book_echo shelf { title := "Dune", author := "Frank Herbert", stars := 5 }
      (by decide) (by decide) (Or.inl rfl)).2.2.1,
   (add_book_echo shelf { title := "Dune", author := "Frank Herbert", stars := 5 }
      (by decide) (by decide) (Or.inl rfl)).2.2.2.1,
   by decide⟩

/-- C3, as stated, fails: with stars 2^64 - 1 supplied, the new row holds -1 and the
echo has no Stars line, whereas `print_record` of the book with exactly the supplied
stars prints the line "Stars: 18446744073709551615". -/
theorem add_book_stars_wrap :
    (run (add_book { title := "Dune", stars := 18446744073709551615 }) shelf).world.db.books
      = [dune, emma, ⟨3, "Dune", some "", some "", some "", some (-1), some Time.zero, 200, 200⟩]
    ∧ (run (add_book { title := "Dune", stars := 18446744073709551615 }) shelf).world.out
      = ["ID: 3", "Title: Dune", ""]
    ∧ (run (Book.print_record ⟨3, "Dune", "", "", "", 18446744073709551615, Time.zero,
          Time.zero, Time.zero⟩) shelf).world.out
      = ["ID: 3", "Title: Dune", "Stars: 18446744073709551615", ""] := by
  decide

theorem toDigitsCore_step (fuel n : Nat) (ds : List Char) :
    Nat.toDigitsCore 10 (fuel + 1) n ds
      = if n / 10 = 0 then Nat.digitChar (n % 10) :: ds
        else Nat.toDigitsCore 10 fuel (n / 10) (Nat.digitChar (n % 10) :: ds) := by
  simp [Nat.toDigitsCore]

/-- The decimal digits of a number below 10000, by size. -/
theorem toDigits_small (n : Nat) (h : n < 10000) :
    Nat.toDigits 10 n
      = if n < 10 then [Nat.digitChar n]
        else if n < 100 then [Nat.digitChar (n / 10), Nat.digitChar (n % 10)]
        else if n < 1000 then
          [Nat.digitChar (n / 100), Nat.digitChar (n / 10 % 10), Nat.digitChar (n % 10)]
        else [Nat.digitChar (n / 1000), Nat.digitChar (n / 100 % 10),
          Nat.digitChar (n / 10 % 10), Nat.digitChar (n % 10)] := by
  unfold Nat.toDigits
  by_cases h1 : n < 10
  · rw [toDigitsCore_step, if_pos (by omega), if_pos h1, Nat.mod_eq_of_lt h1]
  · rw [if_neg h1]
    obtain ⟨m, rfl⟩ : ∃ m, n = m + 1 := ⟨n - 1, by omega⟩
    rw [toDigitsCore_step, if_neg (by omega)]
    by_cases h2 : m + 1 < 100
    · rw [toDigitsCore_step, if_pos (by omega), if_pos h2,
        Nat.mod_eq_of_lt (show (m + 1) / 10 < 10 by omega)]
    · rw [if_neg h2]
      obtain ⟨k, rfl⟩ : ∃ k, m = k + 1 := ⟨m - 1, by omega⟩
      rw [toDigitsCore_step, if_neg (by omega)]
      by_cases h3 : k + 1 + 1 < 1000
      · rw [toDigitsCore_step, if_pos (by omega), if_pos h3,
          Nat.mod_eq_of_lt (show (k + 1 + 1) / 10 / 10 < 10 by omega),
          Nat.div_div_eq_div_mul]
      · rw [if_neg h3]
        obtain ⟨j, rfl⟩ : ∃ j, k = j + 1 := ⟨k - 1, by omega⟩
        rw [toDigitsCore_step, if_neg (by omega), toDigitsCore_step, if_pos (by omega),
          Nat.mod_eq_of_lt (show (j + 1 + 1 + 1) / 10 / 10 / 10 < 10 by omega),
          Nat.div_div_eq_div_mul, Nat.div_div_eq_div_mul, Nat.div_div_eq_div_mul]

theorem digitChar_zero : Nat.digitChar 0 = '0' := rfl

theorem appendInt_four (a b c d : Nat) (ha : a < 10) (hb : b < 10) (hc : c < 10) (hd : d < 10) :
    appendInt ((1000 * a + 100 * b + 10 * c + d : Nat) : Int) 4
      = [Nat.digitChar a, Nat.digitChar b, Nat.digitChar c, Nat.digitChar d] := by
  unfold appendInt
  have hn : 1000 * a + 100 * b + 10 * c + d < 10000 := by omega
  have hneg : ¬ (((1000 * a + 100 * b + 10 * c + d : Nat) : Int) < 0) := by omega
  rw [if_neg hneg]
  simp only [Int.natAbs_ofNat, toDigits_small _ hn, List.nil_append]
  have e0 : (1000 * a + 100 * b + 10 * c + d) % 10 = d := by omega
  have e1 : (1000 * a + 100 * b + 10 * c + d) / 10 % 10 = c := by omega
  have e2 : (1000 * a + 100 * b + 10 * c + d) / 100 % 10 = b := by omega
  have e3 : (1000 * a + 100 * b + 10 * c + d) / 1000 = a := by omega
  generalize 1000 * a + 100 * b + 10 * c + d = n at *
  by_cases h1 : n < 10
  · have : a = 0 ∧ b = 0 ∧ c = 0 ∧ n = d := by omega
    obtain ⟨rfl, rfl, rfl, rfl⟩ := this
    simp only [if_pos h1, digitChar_zero]
    rfl
  · by_cases h2 : n < 100
    · have : a = 0 ∧ b = 0 ∧ n / 10 = c := by omega
      obtain ⟨rfl, rfl, e4⟩ := this
      simp only [if_neg h1, if_pos h2, digitChar_zero, e0, e4]
      rfl
    · by_cases h3 : n < 1000
      · have : a = 0 ∧ n / 100 = b := by omega
        obtain ⟨rfl, e4⟩ := this
        simp only [if_neg h1, if_neg h2, if_pos h3, digitChar_zero, e0, e1, e4]
        rfl
      · simp only [if_neg h1, if_neg h2, if_neg h3, e0, e1, e2, e3]
        rfl

theorem appendInt_two (a b : Nat) (ha : a < 10) (hb : b < 10) :
    appendInt ((10 * a + b : Nat) : Int) 2 = [Nat.digitChar a, Nat.digitChar b] := by
  unfold appendInt
  have hn : 10 * a + b < 10000 := by omega
  have hneg : ¬ (((10 * a + b : Nat) : Int) < 0) := by omega
  rw [if_neg hneg]
  simp only [Int.natAbs_ofNat, toDigits_small _ hn, List.nil_append]
  have h2 : 10 * a + b < 100 := by omega
  have e4 : (10 * a + b) / 10 = a := by omega
  have e5 : (10 * a + b) % 10 = b := by omega
  generalize 10 * a + b = n at *
  by_cases h1 : n < 10
  · have : a = 0 ∧ n = b := by omega
    obtain ⟨rfl, rfl⟩ := this
    simp only [if_pos h1, digitChar_zero]
    rfl
  · simp only [if_neg h1, if_pos h2, e4, e5]
    rfl

theorem isDigit_range (c : Char) (h : isDigit c = true) : 48 ≤ c.toNat ∧ c.toNat ≤ 57 := by
  unfold isDigit at h
  simpa using h

theorem digitVal_lt (c : Char) (h : isDigit c = true) : digitVal c < 10 := by
  have := isDigit_range c h
  have h0 : '0'.toNat = 48 := rfl
  unfold digitVal
  omega

theorem digitChar_digitVal (c : Char) (h : isDigit c = true) :
    Nat.digitChar (digitVal c) = c := by
  obtain ⟨h1, h2⟩ := isDigit_range c h
  have hc := Char.ofNat_toNat c
  unfold digitVal
  generalize c.toNat = n at *
  interval_cases n <;> (rw [← hc]; rfl)

/-- Formatting a parsed date gives back the string that was parsed. -/
theorem Format_Parse (s : String) (t : Time) (h : time_Parse s = some t) : t.Format = s := by
  obtain ⟨y1, y2, y3, y4, m1, m2, d1, d2, hs, ⟨a1, a2, a3, a4⟩, ⟨a5, a6, a7, a8⟩, ht, -, -⟩ :=
    time_Parse_some s t h
  subst ht
  unfold Time.Format
  simp only []
  rw [appendInt_four _ _ _ _ (digitVal_lt _ a1) (digitVal_lt _ a2) (digitVal_lt _ a3)
      (digitVal_lt _ a4),
    appendInt_two _ _ (digitVal_lt _ a5) (digitVal_lt _ a6),
    appendInt_two _ _ (digitVal_lt _ a7) (digitVal_lt _ a8)]
  simp only [digitChar_digitVal, a1, a2, a3, a4, a5, a6, a7, a8, List.cons_append,
    List.nil_append]
  rw [← hs]
  rfl

/-! ## C8: a date read survives the round trip -/

theorem Format_zero : Time.zero.Format = "0001-01-01" := by decide

/-- The Date Read line is among the lines of a record whose date is not the zero time. -/
theorem date_line_mem (book : Book) (h : book.date_read ≠ Time.zero) :
    "Date Read: " ++ book.date_read.Format ∈ record_lines book := by
  unfold record_lines
  simp [h]

/-- C8, as amended: for every string that parses as a YYYY-MM-DD date, formatting the
parsed time with the same layout gives the string back; and when the string is not
"0001-01-01" (the day of the zero time), a book created by `add_book` with that
`date_read`, on a storage whose calls succeed, is echoed with the line
"Date Read: " followed by the same string, and reading the new id back prints that line
again. -/
theorem date_read_round_trip (db : DB) (f : Flags) (t : Time) (hh : db.Healthy)
    (ht : f.title ≠ "") (hp : time_Parse f.date_read = some t)
    (hz : f.date_read ≠ "0001-01-01") :
    t.Format = f.date_read
    ∧ "Date Read: " ++ f.date_read ∈ (run (add_book f) db).world.out
    ∧ "Date Read: " ++ f.date_read
        ∈ (run (read_book db.nextId) (run (add_book f) db).world.db).world.out := by
  have hfmt := Format_Parse _ _ hp
  have hne : f.date_read ≠ "" := by
    intro h0
    have hp0 : time_Parse "" = none := by decide
    rw [h0, hp0] at hp
    cases hp
  have htz : t ≠ Time.zero := by
    intro h0
    rw [h0, Format_zero] at hfmt
    exact hz hfmt.symm
  have hrun := add_book_run db f t hh ht (Or.inr ⟨hne, hp⟩)
  have hline := date_line_mem ⟨(db.nextId : Int), f.title, f.author, f.addn_authors, f.state,
    int64 f.stars, t, Time.zero, Time.zero⟩ htz
  simp only [hfmt] at hline
  have hq := by_id_inserted db ⟨db.nextId, f.title, some f.author, some f.addn_authors,
    some f.state, some (int64 f.stars), some t, db.now, db.now⟩ db.nextId db.now db.faults rfl
  have hread := read_book_found db.nextId ⟨⟨db.books ++ [⟨db.nextId, f.title, some f.author,
      some f.addn_authors, some f.state, some (int64 f.stars), some t, db.now, db.now⟩],
      db.nextId, db.now, db.faults⟩, []⟩ _ _ f.author f.state t (nextId_fresh db).1 hh.2
      hh.1 hq rfl rfl rfl
  refine ⟨hfmt, ?_, ?_⟩
  · rw [hrun]
    exact hline
  · rw [hrun]
    simp only [Res.world, run, hread, print_record_apply, Row.select, Option.getD,
      List.nil_append]
    exact hline

/-- C8 at the date of the specification: "2014-02-14" is echoed as
"Date Read: 2014-02-14". -/
theorem date_read_round_trip_witness :
    ({ year := 2014, month := 2, day := 14, nsec := 0 } : Time).Format = "2014-02-14"
    ∧ "Date Read: 2014-02-14"
        ∈ (run (add_book { title := "Dune", date_read := "2014-02-14" }) shelf).world.out
    ∧ "Date Read: 2014-02-14"
        ∈ (run (read_book shelf.nextId)
            (run (add_book { title := "Dune", date_read := "2014-02-14" }) shelf).world.db).world.out :=
  date_read_round_trip shelf { title := "Dune", date_read := "2014-02-14" } ⟨2014, 2, 14, 0⟩
    (by decide) (by decide) (by decide) (by decide)

/-- C8, as stated, fails: "0001-01-01" is a valid YYYY-MM-DD date, yet a book added
with that `date_read` is echoed, and read back, without any Date Read line, because the
parsed time is the zero time. -/
theorem date_read_zero_day_suppressed :
    time_Parse "0001-01-01" = some Time.zero
    ∧ (run (add_book { title := "Dune", date_read := "0001-01-01" })
        (DB.healthy [] 0 100)).world.out = ["ID: 1", "Title: Dune", ""]
    ∧ "Date Read: 0001-01-01"
        ∉ (run (add_book { title := "Dune", date_read := "0001-01-01" })
            (DB.healthy [] 0 100)).world.out
    ∧ "Date Read: 0001-01-01"
        ∉ (run (read_book 1) (run (add_book { title := "Dune", date_read := "0001-01-01" })
            (DB.healthy [] 0 100)).world.db).world.out := by
  decide

/-! ## C9: searching -/

/-- The read loop prints every row of the cursor, in order. -/
theorem rows_loop_apply (rows : List Row) (w : World) :
    rows_loop (rows.map Row.select) w
      = .ok () { w with out := w.out ++ (rows.map Row.rendered).flatten } := by
  induction rows generalizing w with
  | nil => simp [rows_loop, pure_apply]
  | cons r rest ih =>
    simp only [List.map_cons, rows_loop, bind_apply, print_record_apply, ih, List.flatten_cons,
      Row.rendered, List.append_assoc]

theorem count_filter_row (p : Row → Bool) (r : Row) (l : List Row) :
    (l.filter p).count r = if p r then l.count r else 0 := by
  by_cases hp : p r = true
  · rw [if_pos hp, List.count_filter hp]
  · rw [if_neg hp, List.count_eq_zero]
    intro hm
    exact hp (List.mem_filter.mp hm).2

/-- On a storage whose calls are not interrupted, with every pattern within SQLite's
limit, `search_books` prints the rows of `search_hits` and changes nothing. -/
theorem search_books_run (db : DB) (f : Flags) (hf : db.faults = [])
    (h1 : f.title.utf8ByteSize ≤ 50000) (h2 : f.author.utf8ByteSize ≤ 50000)
    (h3 : f.addn_authors.utf8ByteSize ≤ 50000) (h4 : f.state.utf8ByteSize ≤ 50000) :
    run (search_books f) db = .ok () ⟨db, ((search_hits f db).map Row.rendered).flatten⟩ := by
  have q1 : ∀ w1 : World, w1.db.faults = [] → db_Query (.title_like f.title) w1
      = .ok (some ((Query.title_like f.title).run w1.db), none) w1 :=
    fun w1 h => db_Query_healthy _ w1 h rfl
  have q2 : ∀ w1 : World, w1.db.faults = [] → db_Query (.author_like f.author) w1
      = .ok (some ((Query.author_like f.author).run w1.db), none) w1 :=
    fun w1 h => db_Query_healthy _ w1 h rfl
  have q3 : ∀ w1 : World, w1.db.faults = [] → db_Query (.addn_authors_like f.addn_authors) w1
      = .ok (some ((Query.addn_authors_like f.addn_authors).run w1.db), none) w1 :=
    fun w1 h => db_Query_healthy _ w1 h rfl
  have q4 : ∀ w1 : World, w1.db.faults = [] → db_Query (.state_like f.state) w1
      = .ok (some ((Query.state_like f.state).run w1.db), none) w1 :=
    fun w1 h => db_Query_healthy _ w1 h rfl
  have t1 : (Query.title_like f.title).tooComplex = false := by
    simp only [Query.tooComplex, decide_eq_false_iff_not]; omega
  have t2 : (Query.author_like f.author).tooComplex = false := by
    simp only [Query.tooComplex, decide_eq_false_iff_not]; omega
  have t3 : (Query.addn_authors_like f.addn_authors).tooComplex = false := by
    simp only [Query.tooComplex, decide_eq_false_iff_not]; omega
  have t4 : (Query.state_like f.state).tooComplex = false := by
    simp only [Query.tooComplex, decide_eq_false_iff_not]; omega
  unfold search_books search_hits run
  by_cases e1 : f.title = "" <;> by_cases e2 : f.author = ""
    <;> by_cases e3 : f.addn_authors = "" <;> by_cases e4 : f.state = ""
    <;> simp only [e1, e2, e3, e4, ne_eq, not_true_eq_false, not_false_eq_true, if_true,
      if_false, bind_apply, pure_apply]
    <;> simp (disch := simp only [hf]) only [q1, q2, q3, q4, bind_apply, pure_apply,
      rows_each, Query.run, t1, t2, t3, t4, Bool.false_eq_true, if_false,
      rows_loop_apply, List.nil_append, List.append_nil, List.map_append,
      List.flatten_append, List.append_assoc, List.map_nil, List.flatten_nil]

/-- C9, as amended: for every table and every setting of the four patterns, each at
most 50000 bytes long, on a storage whose calls are not interrupted, `search_books`
returns normally and leaves the storage as it was, and its output is the concatenation
of the rendered rows of `search_hits`: the rows whose title is LIKE the title pattern,
then those matching the author pattern, then addn_authors, then state, each list in
storage order and only for a non-empty pattern.  Nothing is merged: a row occurs in that
sequence once for each supplied criterion it matches (times the number of times it
occurs in the table, which is 1 under the primary key). -/
theorem search_books_output (db : DB) (f : Flags) (hf : db.faults = [])
    (h1 : f.title.utf8ByteSize ≤ 50000) (h2 : f.author.utf8ByteSize ≤ 50000)
    (h3 : f.addn_authors.utf8ByteSize ≤ 50000) (h4 : f.state.utf8ByteSize ≤ 50000) :
    run (search_books f) db = .ok () ⟨db, ((search_hits f db).map Row.rendered).flatten⟩
    ∧ ∀ r : Row, (search_hits f db).count r = criteria_matched f r * db.books.count r := by
  refine ⟨search_books_run db f hf h1 h2 h3 h4, ?_⟩
  intro r
  unfold search_hits criteria_matched
  simp only [List.count_append]
  by_cases e1 : f.title = "" <;> by_cases e2 : f.author = ""
    <;> by_cases e3 : f.addn_authors = "" <;> by_cases e4 : f.state = ""
    <;> simp only [e1, e2, e3, e4, ne_eq, not_true_eq_false, not_false_eq_true, if_true,
      if_false, List.count_nil, count_filter_row, Query.selects, true_and, false_and,
      Nat.add_mul, Nat.zero_mul, Nat.zero_add, Nat.add_zero, ite_mul, Nat.one_mul]

/-- C9 at a concrete input: on the sample shelf the title pattern matches both rows and
the author pattern matches the second, which is therefore printed twice. -/
theorem search_books_output_witness :
    run (search_books { title := "%e%", author := "jane%" }) shelf
      = .ok () ⟨shelf,
         ["ID: 1", "Title: Dune", "Author: Frank Herbert", "Stars: 5", "",
          "ID: 2", "Title: Emma", "Author: Jane Austen", "State: read",
          "Date Read: 2014-02-14", "",
          "ID: 2", "Title: Emma", "Author: Jane Austen", "State: read",
          "Date Read: 2014-02-14", ""]⟩
    ∧ (search_hits { title := "%e%", author := "jane%" } shelf).count emma = 2 :=
  ⟨(search_books_output shelf { title := "%e%", author := "jane%" } rfl (by decide)
      (by decide) (by decide) (by decide)).1.trans
      (congrArg (fun out => Res.ok () (World.mk shelf out)) (by decide)),
   by decide⟩

theorem utf8_go_percents (n : Nat) :
    String.utf8ByteSize.go (List.replicate n '%') = n := by
  induction n with
  | zero => rfl
  | succ k ih =>
    rw [List.replicate_succ, String.utf8ByteSize.go, ih]
    rfl

theorem long_pattern_size : long_pattern.utf8ByteSize = 50001 :=
  utf8_go_percents 50001

/-- A run of `%` matches the empty text. -/
theorem likeList_percents_nil (n : Nat) : likeList (List.replicate n '%') [] = true := by
  induction n with
  | zero => rfl
  | succ k ih =>
    rw [List.replicate_succ, likeList]
    simp [ih]

/-- A non-empty run of `%` matches every text. -/
theorem likeList_percents (n : Nat) (text : List Char) :
    likeList (List.replicate (n + 1) '%') text = true := by
  rw [List.replicate_succ]
  simp only [likeList, if_true, List.any_eq_true]
  exact ⟨[], by simp, likeList_percents_nil n⟩

/-- By the rules of LIKE the long pattern matches every title. -/
theorem long_pattern_selects (r : Row) : (Query.title_like long_pattern).selects r = true :=
  likeList_percents 50000 r.title.toList

/-- A search by a title pattern that SQLite refuses prints nothing. -/
theorem search_books_refused_title (db : DB) (p : String) (hf : db.faults = [])
    (hp : p ≠ "") (hl : 50000 < p.utf8ByteSize) :
    run (search_books { title := p }) db = .ok () ⟨db, []⟩ := by
  have q1 : db_Query (.title_like p) ⟨db, []⟩
      = .ok (some ((Query.title_like p).run db), none) ⟨db, []⟩ :=
    db_Query_healthy _ _ hf rfl
  have t1 : (Query.title_like p).tooComplex = true := by
    simp only [Query.tooComplex, decide_eq_true_eq]; exact hl
  simp only [run, search_books, hp, ne_eq, not_true_eq_false, not_false_eq_true, if_true,
    if_false, bind_apply, pure_apply, q1, rows_each, Query.run, t1, rows_loop]

/-- C9, as stated, fails: the title pattern of 50001 times `%` matches every title by
the rules of LIKE, so the claim has both rows of the sample shelf printed; SQLite
refuses a pattern of that length, the loop sees no row, and `search_books` prints
nothing. -/
theorem search_books_long_pattern :
    long_pattern.utf8ByteSize = 50001
    ∧ search_hits { title := long_pattern } shelf = [dune, emma]
    ∧ run (search_books { title := long_pattern }) shelf = .ok () ⟨shelf, []⟩
    ∧ run (search_books { title := long_pattern }) shelf
        ≠ .ok () ⟨shelf, ((search_hits { title := long_pattern } shelf).map Row.rendered).flatten⟩ := by
  have hp : long_pattern ≠ "" := by
    intro h
    have := congrArg String.utf8ByteSize h
    rw [long_pattern_size] at this
    exact absurd this (by decide)
  have hhits : search_hits { title := long_pattern } shelf = [dune, emma] := by
    simp [search_hits, hp, long_pattern_selects, shelf, DB.healthy]
  have hrun := search_books_refused_title shelf long_pattern rfl hp
    (by rw [long_pattern_size]; decide)
  refine ⟨long_pattern_size, hhits, hrun, ?_⟩
  rw [hrun, hhits]
  decide

/-! ## C10: storage errors -/

/-- C10 on concrete inputs: when the one storage call of `add_book`, `search_books` or
`list_all_books` returns an error, the function prints the error and then panics with
a nil dereference, because it goes on to use the nil result or nil cursor. -/
theorem storage_error_panics :
    run (add_book { title := "Dune" }) { shelf with faults := [some "disk I/O error"] }
      = .panicked nilDereference ⟨shelf, ["disk I/O error"]⟩
    ∧ run (search_books { title := "%" }) { shelf with faults := [some "disk I/O error"] }
      = .panicked nilDereference ⟨shelf, ["disk I/O error"]⟩
    ∧ run list_all_books { shelf with faults := [some "disk I/O error"] }
      = .panicked nilDereference ⟨shelf, ["disk I/O error"]⟩ := by
  decide

theorem returns_pure : Returns (pure PUnit.unit) := fun w => ⟨w, rfl⟩

theorem returns_Println (args : List String) : Returns (Println args) := fun _ => ⟨_, rfl⟩

theorem returns_bind (p : Prog Unit) (q : Unit → Prog Unit) (hp : Returns p)
    (hq : Returns (q ())) : Returns (p >>= q) := by
  intro w
  obtain ⟨w1, h1⟩ := hp w
  obtain ⟨w2, h2⟩ := hq w1
  exact ⟨w2, by rw [bind_apply, h1]; exact h2⟩

theorem returns_ite (c : Prop) [Decidable c] (p q : Prog Unit) (hp : Returns p)
    (hq : Returns q) : Returns (if c then p else q) := by
  by_cases h : c
  · rw [if_pos h]; exact hp
  · rw [if_neg h]; exact hq

theorem returns_report (tx : Tx) (s : Stmt) : Returns (tx_Exec_report tx s) := by
  intro w
  simp only [tx_Exec_report, tx_Exec, db_Exec, bind_apply]
  rcases w.db.nextFault with ⟨_ | msg, db1⟩
  · cases s.refused <;> exact ⟨_, rfl⟩
  · exact ⟨_, rfl⟩

theorem returns_read_book (id : Nat) : Returns (read_book id) := by
  intro w
  unfold read_book
  by_cases hid : id > 0
  · simp only [hid, if_true, bind_apply, db_QueryRow]
    rcases w.db.nextFault with ⟨_ | msg, db1⟩
    · cases (Query.by_id id).refused with
      | some msg => exact ⟨_, rfl⟩
      | none =>
        simp only []
        generalize row_Scan _ _ = sc
        obtain ⟨book, err⟩ := sc
        cases err with
        | none => exact ⟨_, print_record_apply _ _⟩
        | some e =>
          cases e with
          | ErrNoRows => exact ⟨_, rfl⟩
          | other msg => exact ⟨_, rfl⟩
    · exact ⟨_, rfl⟩
  · exact ⟨w, by simp [hid, pure_apply]⟩

theorem returns_edit_book_body (f : Flags) (id : Nat) (tx : Tx) :
    Returns (edit_book_body f id tx) := by
  unfold edit_book_body
  repeat' first
    | exact returns_pure
    | exact returns_Println _
    | exact returns_report _ _
    | apply returns_ite
    | apply returns_bind
    | split

/-- `edit_book` returns normally whatever storage calls fail. -/
theorem returns_edit_book (f : Flags) (id : Nat) : Returns (edit_book f id) := by
  intro w
  unfold edit_book
  by_cases hid : id > 0
  · simp only [hid, if_true, bind_apply, db_Begin]
    rcases w.db.nextFault with ⟨_ | msg, db1⟩
    · obtain ⟨w1, h1⟩ := returns_edit_book_body f id ⟨db1.books, db1.seq⟩ { w with db := db1 }
      simp only [bind_apply, pure_apply, withDefer, h1]
      exact ⟨_, rfl⟩
    · exact ⟨_, rfl⟩
  · exact ⟨w, by simp [hid, pure_apply]⟩

/-- `delete_book` returns normally whatever storage calls fail. -/
theorem returns_delete_book (id : Nat) : Returns (delete_book id) := by
  intro w
  obtain ⟨w1, h1⟩ := returns_read_book id w
  unfold delete_book
  simp only [bind_apply, h1]
  by_cases hid : id > 0
  · simp only [hid, if_true, bind_apply, db_Exec]
    rcases w1.db.nextFault with ⟨_ | msg, db1⟩
    · cases (Stmt.delete id).refused <;> exact ⟨_, rfl⟩
    · exact ⟨_, rfl⟩
  · exact ⟨w1, by simp [hid, pure_apply]⟩

end Booklist
